import Mathlib

/-!
RDP bitmap cache of guacamole-server (`src/protocols/rdp/rdp_bitmap.c`).

A shallow embedding of the five bitmap callbacks (`guac_rdp_cache_bitmap`,
`guac_rdp_bitmap_new`, `guac_rdp_bitmap_paint`, `guac_rdp_bitmap_free`,
`guac_rdp_bitmap_setsurface`) as state-passing functions, followed by the
properties of the tile cache proved about them.

Pointers are `Option`s (`none` is `NULL`), the collaborators that the file
calls but does not define (the display, the heap, the client log) are state
components that record every call made to them, and a dereference of `NULL`
is the explicit result `Except.error Fault.null_dereference`.
-/

namespace RdpBitmap

/-! ## Machine integers -/

/-- Value of an integer expression after conversion to a 32-bit `int`
(two's complement wrap-around). -/
def to_int (n : Int) : Int :=
  if n % 4294967296 < 2147483648 then n % 4294967296 else n % 4294967296 - 4294967296

/-- Value of an integer expression evaluated in `UINT32` arithmetic. -/
def to_uint32 (n : Int) : Int :=
  n % 4294967296

/-! ## Data model -/

/-- Ways in which the C code can leave defined behaviour. -/
inductive Fault where
  | null_dereference
deriving DecidableEq, Repr

/-- A `BYTE*` that is not `NULL`: the address of the block and its contents. -/
structure pixel_buffer where
  addr : Nat
  bytes : List Nat
deriving DecidableEq, Repr

/-- A `guac_common_surface*`: the display's default surface (the canvas) or the
surface of the off-screen buffer with the given index. -/
inductive guac_common_surface where
  | default_surface
  | buffer_surface (index : Nat)
deriving DecidableEq, Repr

/-- A `guac_common_display_layer` handed out by the display. -/
structure guac_common_display_layer where
  index : Nat
deriving DecidableEq, Repr

/-- The field `layer->surface`. -/
def guac_common_display_layer.surface (layer : guac_common_display_layer) :
    guac_common_surface :=
  guac_common_surface.buffer_surface layer.index

/-- The cairo pixel formats that occur. -/
inductive cairo_format_t where
  | CAIRO_FORMAT_ARGB32
  | CAIRO_FORMAT_RGB24
deriving DecidableEq, Repr

/-- The image built by `cairo_image_surface_create_for_data`: it aliases the
given data and carries the dimensions and row stride it was created with. -/
structure cairo_surface_t where
  data : pixel_buffer
  format : cairo_format_t
  width : Int
  height : Int
  stride : Int
deriving DecidableEq, Repr

/-- The call `cairo_image_surface_create_for_data(data, format, width, height,
stride)`. -/
def cairo_image_surface_create_for_data (data : pixel_buffer) (format : cairo_format_t)
    (width height stride : Int) : cairo_surface_t :=
  { data := data, format := format, width := width, height := height, stride := stride }

/-- A call received by the display or by one of its surfaces. -/
inductive display_call where
  | alloc_buffer (width height : Int) (result : Option guac_common_display_layer)
  | free_buffer (buffer : guac_common_display_layer)
  | surface_draw (dst : guac_common_surface) (x y : Int) (src : cairo_surface_t)
  | surface_copy (src : guac_common_surface) (sx sy w h : Int)
      (dst : guac_common_surface) (dx dy : Int)
deriving DecidableEq, Repr

/-- Modelled from the spec: the Display collaborator (`guac_common_display`,
declared in `common/display.h`, which is not among the sources). It hands out
buffers with fresh indices while it has resources left (`remaining`), and
`calls` lists every call it and its surfaces received, oldest first. -/
structure guac_common_display where
  next_index : Nat
  remaining : Nat
  calls : List display_call
deriving DecidableEq, Repr

/-- The fields of `guac_rdp_client` that the bitmap callbacks use. -/
structure guac_rdp_client where
  display : guac_common_display
  current_surface : guac_common_surface
deriving DecidableEq, Repr

/-- A call to the aligned heap of winpr. -/
inductive heap_call where
  | aligned_malloc (size alignment : Int) (result : Nat)
  | aligned_free (addr : Nat)
deriving DecidableEq, Repr

/-- What the callbacks reach through `rdpContext* context`: the RDP client
data (`context->client->data`), the heap (next fresh address and the calls
made to it, oldest first) and the messages passed to `guac_client_log`. -/
structure rdpContext where
  rdp_client : guac_rdp_client
  next_addr : Nat
  heap_calls : List heap_call
  log : List String
deriving DecidableEq, Repr

/-- The bitmap `rdpBitmap` extended to `guac_rdp_bitmap`: the `UINT32` fields
of FreeRDP (values below `2^32`), the pixel data pointer, and the two fields
the cache adds, `layer` and `used` (a C `int`: a value from `-2^31` to
`2^31 - 1`, kept in that range by the wrapping increment of the paint). -/
structure guac_rdp_bitmap where
  left : Nat
  top : Nat
  right : Nat
  bottom : Nat
  width : Nat
  height : Nat
  format : Nat
  data : Option pixel_buffer
  layer : Option guac_common_display_layer
  used : Int
deriving DecidableEq, Repr

/-- A callback that returned: its `BOOL` return value, the context after the
call and the bitmap argument after the call. -/
structure outcome (β : Type) where
  ret : Bool
  context : rdpContext
  bitmap : β
deriving DecidableEq, Repr

/-- FreeRDP's pixel format constant `PIXEL_FORMAT_XRGB32`
(`freerdp/codec/color.h`): 32 bpp, type ARGB, channels 0/8/8/8. -/
def PIXEL_FORMAT_XRGB32 : Nat := 0x20010888

/-- FreeRDP's `freerdp_image_copy`, as far as `guac_rdp_bitmap_new` uses it:
from the dimensions, the source bytes and the source format (and the palette
of the context, fixed for a session) it either fails (`none`) or yields the
bytes it wrote to the destination. -/
abbrev image_converter := Nat → Nat → List Nat → Nat → Option (List Nat)

/-! ## Collaborators -/

/-- Modelled from the spec: `guac_common_display_alloc_buffer(display, width,
height)` of `common/display.c`, which is not among the sources: "fails if
resources are exhausted", otherwise returns a buffer not handed out before. -/
def guac_common_display_alloc_buffer (display : guac_common_display) (width height : Int) :
    Option guac_common_display_layer × guac_common_display :=
  if display.remaining = 0 then
    (none, { display with
      calls := display.calls ++ [display_call.alloc_buffer width height none] })
  else
    (some ⟨display.next_index⟩,
     { next_index := display.next_index + 1
       remaining := display.remaining - 1
       calls := display.calls ++
         [display_call.alloc_buffer width height (some ⟨display.next_index⟩)] })

/-- Modelled from the spec: `guac_common_display_free_buffer(display, buffer)`
of `common/display.c`, which is not among the sources; the release is
recorded. -/
def guac_common_display_free_buffer (display : guac_common_display)
    (buffer : guac_common_display_layer) : guac_common_display :=
  { display with calls := display.calls ++ [display_call.free_buffer buffer] }

/-- Modelled from the spec: `guac_common_surface_draw(surface, x, y, src)` of
`common/surface.c`, which is not among the sources; the blit is recorded. -/
def guac_common_surface_draw (display : guac_common_display) (surface : guac_common_surface)
    (x y : Int) (src : cairo_surface_t) : guac_common_display :=
  { display with calls := display.calls ++ [display_call.surface_draw surface x y src] }

/-- Modelled from the spec: `guac_common_surface_copy(src, sx, sy, w, h, dst,
dx, dy)` of `common/surface.c`, which is not among the sources; the copy is
recorded. -/
def guac_common_surface_copy (display : guac_common_display) (src : guac_common_surface)
    (sx sy w h : Int) (dst : guac_common_surface) (dx dy : Int) : guac_common_display :=
  { display with calls := display.calls ++ [display_call.surface_copy src sx sy w h dst dx dy] }

/-- The call `_aligned_malloc(size, alignment)`: a block at a fresh address
(exhaustion of the heap is not modelled). -/
def aligned_malloc (context : rdpContext) (size alignment : Int) : Nat × rdpContext :=
  (context.next_addr,
   { context with
     next_addr := context.next_addr + 1
     heap_calls := context.heap_calls ++
       [heap_call.aligned_malloc size alignment context.next_addr] })

/-- The call `_aligned_free(addr)`. -/
def aligned_free (context : rdpContext) (addr : Nat) : rdpContext :=
  { context with heap_calls := context.heap_calls ++ [heap_call.aligned_free addr] }

/-- The call `guac_client_log(client, GUAC_LOG_INFO, message)`. -/
def guac_client_log (context : rdpContext) (message : String) : rdpContext :=
  { context with log := context.log ++ [message] }

/-- The context with `rdp_client->display` replaced. -/
def rdpContext.set_display (context : rdpContext) (display : guac_common_display) :
    rdpContext :=
  { context with rdp_client := { context.rdp_client with display := display } }

/-- The context with `rdp_client->current_surface` replaced. -/
def rdpContext.set_current_surface (context : rdpContext) (surface : guac_common_surface) :
    rdpContext :=
  { context with rdp_client := { context.rdp_client with current_surface := surface } }

/-! ## The callbacks of `rdp_bitmap.c` -/

/-- The function `guac_rdp_cache_bitmap` (lines 41-71): allocate a buffer of
the bitmap's size, draw the image data into `buffer->surface` if there is
data (a `NULL` buffer is dereferenced there), store the buffer in `layer`. -/
def guac_rdp_cache_bitmap (context : rdpContext) (bitmap : guac_rdp_bitmap) :
    Except Fault (outcome guac_rdp_bitmap) :=
  match guac_common_display_alloc_buffer context.rdp_client.display
      (to_int bitmap.width) (to_int bitmap.height) with
  | (buffer, display) =>
    match bitmap.data with
    | some data =>
      match buffer with
      | none => Except.error Fault.null_dereference
      | some layer =>
        let image := cairo_image_surface_create_for_data data cairo_format_t.CAIRO_FORMAT_RGB24
          (to_int bitmap.width) (to_int bitmap.height) (to_int (4 * (bitmap.width : Int)))
        Except.ok
          { ret := true
            context := context.set_display (guac_common_surface_draw display layer.surface 0 0 image)
            bitmap := { bitmap with layer := some layer } }
    | none =>
      Except.ok
        { ret := true
          context := context.set_display display
          bitmap := { bitmap with layer := buffer } }

/-- The function `guac_rdp_bitmap_new` (lines 73-104): convert the image data
to `PIXEL_FORMAT_XRGB32` if it is present and in another format, then start
the bitmap with no layer and zero usage. -/
def guac_rdp_bitmap_new (freerdp_image_copy : image_converter) (context : rdpContext)
    (bitmap : guac_rdp_bitmap) : outcome guac_rdp_bitmap :=
  let converted : rdpContext × guac_rdp_bitmap :=
    match bitmap.data with
    | some data =>
      if bitmap.format ≠ PIXEL_FORMAT_XRGB32 then
        match aligned_malloc context
            (to_uint32 ((bitmap.width : Int) * (bitmap.height : Int) * 4)) 16 with
        | (image_buffer, context) =>
          match freerdp_image_copy bitmap.width bitmap.height data.bytes bitmap.format with
          | none => (aligned_free context image_buffer, bitmap)
          | some bytes =>
            (aligned_free context data.addr,
             { bitmap with data := some { addr := image_buffer, bytes := bytes } })
      else (context, bitmap)
    | none => (context, bitmap)
  { ret := true
    context := converted.1
    bitmap := { converted.2 with layer := none, used := 0 } }

/-- The function `guac_rdp_bitmap_paint` (lines 106-148). The local `buffer`
is read from `layer` before the caching step and is what the drawing step
tests; both drawing calls name `rdp_client->display->default_surface` as
their destination. The increment `used++` is that of a 32-bit `int` as the
compiled code performs it: from 2147483647 it wraps to -2147483648. -/
def guac_rdp_bitmap_paint (context : rdpContext) (bitmap : guac_rdp_bitmap) :
    Except Fault (outcome guac_rdp_bitmap) :=
  let buffer := bitmap.layer
  let width := to_int ((bitmap.right : Int) - (bitmap.left : Int) + 1)
  let height := to_int ((bitmap.bottom : Int) - (bitmap.top : Int) + 1)
  -- If not cached, cache if necessary
  let cached : Except Fault (outcome guac_rdp_bitmap) :=
    if buffer = none ∧ bitmap.used ≥ 1 then guac_rdp_cache_bitmap context bitmap
    else Except.ok { ret := true, context := context, bitmap := bitmap }
  match cached with
  | Except.error fault => Except.error fault
  | Except.ok after =>
    let context := after.context
    let bitmap := after.bitmap
    let display := context.rdp_client.display
    let drawn : guac_common_display :=
      match buffer with
      -- If cached, retrieve from cache
      | some layer =>
        guac_common_surface_copy display layer.surface 0 0 width height
          guac_common_surface.default_surface (to_int bitmap.left) (to_int bitmap.top)
      | none =>
        match bitmap.data with
        -- Otherwise, draw with stored image data
        | some data =>
          guac_common_surface_draw display guac_common_surface.default_surface
            (to_int bitmap.left) (to_int bitmap.top)
            (cairo_image_surface_create_for_data data cairo_format_t.CAIRO_FORMAT_RGB24
              width height (to_int (4 * (bitmap.width : Int))))
        | none => display
    -- Increment usage counter
    Except.ok
      { ret := true
        context := context.set_display drawn
        bitmap := { bitmap with used := to_int (bitmap.used + 1) } }

/-- The function `guac_rdp_bitmap_free` (lines 150-160): release the layer if
there is one. The bitmap itself is not written. -/
def guac_rdp_bitmap_free (context : rdpContext) (bitmap : guac_rdp_bitmap) : rdpContext :=
  match bitmap.layer with
  | some buffer =>
    context.set_display (guac_common_display_free_buffer context.rdp_client.display buffer)
  | none => context

/-- The function `guac_rdp_bitmap_setsurface` (lines 162-189); the bitmap
argument may be `NULL` (`none`). -/
def guac_rdp_bitmap_setsurface (context : rdpContext) (bitmap : Option guac_rdp_bitmap)
    (primary : Bool) : Except Fault (outcome (Option guac_rdp_bitmap)) :=
  if primary then
    Except.ok
      { ret := true
        context := context.set_current_surface guac_common_surface.default_surface
        bitmap := bitmap }
  else
    match bitmap with
    -- Make sure that the received bitmap is not NULL before processing
    | none =>
      Except.ok
        { ret := true
          context := guac_client_log context
            "NULL bitmap found in bitmap_setsurface instruction."
          bitmap := none }
    | some bitmap =>
      -- If not available as a surface, make available.
      let cached : Except Fault (outcome guac_rdp_bitmap) :=
        if bitmap.layer = none then guac_rdp_cache_bitmap context bitmap
        else Except.ok { ret := true, context := context, bitmap := bitmap }
      match cached with
      | Except.error fault => Except.error fault
      | Except.ok after =>
        match after.bitmap.layer with
        | none => Except.error Fault.null_dereference
        | some layer =>
          Except.ok
            { ret := true
              context := after.context.set_current_surface layer.surface
              bitmap := some after.bitmap }

/-! ## Observations and runs -/

/-- Whether a call to the display is a request for a buffer. -/
def display_call.is_alloc_buffer : display_call → Bool
  | display_call.alloc_buffer _ _ _ => true
  | _ => false

/-- The destination surface of a drawing call (a draw or a copy). -/
def display_call.destination : display_call → Option guac_common_surface
  | display_call.surface_draw dst _ _ _ => some dst
  | display_call.surface_copy _ _ _ _ _ dst _ _ => some dst
  | _ => none

/-- How many times `guac_common_display_alloc_buffer` has been called. -/
def allocations (display : guac_common_display) : Nat :=
  display.calls.countP display_call.is_alloc_buffer

/-- How many times `guac_common_display_free_buffer` has been called on the
given layer. -/
def releases (display : guac_common_display) (layer : guac_common_display_layer) : Nat :=
  display.calls.count (display_call.free_buffer layer)

/-- A run of `n` consecutive `guac_rdp_bitmap_paint` calls on one bitmap, with
nothing in between. -/
def paint_run : Nat → rdpContext → guac_rdp_bitmap → Except Fault (outcome guac_rdp_bitmap)
  | 0, context, bitmap => Except.ok { ret := true, context := context, bitmap := bitmap }
  | n + 1, context, bitmap =>
    match guac_rdp_bitmap_paint context bitmap with
    | Except.error fault => Except.error fault
    | Except.ok after => paint_run n after.context after.bitmap

/-- A call of the driving protocol layer on one bitmap: a paint at the given
bounds (`left`, `top`, `right`, `bottom` are set by the caller before the
paint), or a `guac_rdp_bitmap_setsurface` with that bitmap as argument. -/
inductive tile_call where
  | paint (left top right bottom : Nat)
  | setsurface (primary : Bool)
deriving DecidableEq, Repr

/-- Perform one call of the protocol layer on the bitmap. -/
def tile_call.apply (call : tile_call) (context : rdpContext) (bitmap : guac_rdp_bitmap) :
    Except Fault (outcome guac_rdp_bitmap) :=
  match call with
  | tile_call.paint left top right bottom =>
    guac_rdp_bitmap_paint context
      { bitmap with left := left, top := top, right := right, bottom := bottom }
  | tile_call.setsurface primary =>
    match guac_rdp_bitmap_setsurface context (some bitmap) primary with
    | Except.error fault => Except.error fault
    | Except.ok after =>
      Except.ok
        { ret := after.ret, context := after.context, bitmap := after.bitmap.getD bitmap }

/-- Perform a sequence of calls of the protocol layer on one bitmap, first
call first. -/
def tile_run : List tile_call → rdpContext → guac_rdp_bitmap →
    Except Fault (outcome guac_rdp_bitmap)
  | [], context, bitmap => Except.ok { ret := true, context := context, bitmap := bitmap }
  | call :: calls, context, bitmap =>
    match call.apply context bitmap with
    | Except.error fault => Except.error fault
    | Except.ok after => tile_run calls after.context after.bitmap

/-- The image that `guac_rdp_bitmap_paint` builds over the pixel data for its
direct draw (lines 130-132): the draw region's width and height, and a row
stride of four times the bitmap's width. -/
def paint_image (bitmap : guac_rdp_bitmap) (data : pixel_buffer) : cairo_surface_t :=
  cairo_image_surface_create_for_data data cairo_format_t.CAIRO_FORMAT_RGB24
    (to_int ((bitmap.right : Int) - (bitmap.left : Int) + 1))
    (to_int ((bitmap.bottom : Int) - (bitmap.top : Int) + 1))
    (to_int (4 * (bitmap.width : Int)))

/-- Whether drawing the image reads only bytes of its data: row `j` of an
image of positive width occupies the `4 * width` bytes that start at offset
`j * stride`, for every `j` below the height. -/
def cairo_surface_t.reads_in_bounds (image : cairo_surface_t) : Bool :=
  (List.range image.height.toNat).all (fun j =>
    decide (image.width ≤ 0) ||
      (decide (0 ≤ (j : Int) * image.stride) &&
       decide ((j : Int) * image.stride + 4 * image.width ≤ (image.data.bytes.length : Int))))

/-- One past the largest offset read from the data of an image with positive
width, height and stride: the end of its last row. -/
def cairo_surface_t.read_end (image : cairo_surface_t) : Int :=
  (image.height - 1) * image.stride + 4 * image.width

/-! ## Surfaces as pixel grids -/

/-- Modelled from the spec: a surface (`guac_common_surface`, declared in
`common/surface.h`, which is not among the sources) as a pixel grid: its
width and height, and at each position the three colour bytes drawn there,
or `none` where nothing defined has been drawn. -/
structure pixel_grid where
  width : Int
  height : Int
  pixel : Int → Int → Option (Nat × Nat × Nat)

/-- The pixel in column `i` of row `j` of an image in `CAIRO_FORMAT_RGB24`:
row `j` starts `j * stride` bytes into the data, each pixel takes four bytes
of which the fourth is unused; `none` when the bytes are not in the data. -/
def cairo_surface_t.pixel (image : cairo_surface_t) (i j : Int) : Option (Nat × Nat × Nat) :=
  if j * image.stride + 4 * i < 0 then none
  else
    match image.data.bytes.get? (j * image.stride + 4 * i).toNat,
          image.data.bytes.get? ((j * image.stride + 4 * i).toNat + 1),
          image.data.bytes.get? ((j * image.stride + 4 * i).toNat + 2) with
    | some blue, some green, some red => some (blue, green, red)
    | _, _, _ => none

/-- A surface of the given size on which nothing has been drawn. -/
def pixel_grid.blank (width height : Int) : pixel_grid :=
  { width := width, height := height, pixel := fun _ _ => none }

/-- Modelled from the spec: `Surface.draw(src_pixels, x, y, stride)` "blits a
pixel rectangle onto a surface" (`guac_common_surface_draw` of
`common/surface.c`, which is not among the sources): the pixels of the image
replace those of the surface in the rectangle at (`x`, `y`) of the image's
width and height, as far as it lies on the surface. -/
def pixel_grid.draw (dst : pixel_grid) (x y : Int) (src : cairo_surface_t) : pixel_grid :=
  { dst with
    pixel := fun px py =>
      if 0 ≤ px ∧ px < dst.width ∧ 0 ≤ py ∧ py < dst.height ∧
          x ≤ px ∧ px < x + src.width ∧ y ≤ py ∧ py < y + src.height then
        src.pixel (px - x) (py - y)
      else dst.pixel px py }

/-- Modelled from the spec: `Surface.copy(src_surface, sx, sy, w, h,
dst_surface, dx, dy)`, the "rectangle-to-rectangle blit between two surfaces"
(`guac_common_surface_copy` of `common/surface.c`, which is not among the
sources): the pixels of the rectangle (`sx`, `sy`, `w`, `h`) of the source, as
far as it lies on the source, replace those of the destination at (`dx`,
`dy`), as far as they lie on the destination. -/
def pixel_grid.copy (dst : pixel_grid) (dx dy : Int) (src : pixel_grid) (sx sy w h : Int) :
    pixel_grid :=
  { dst with
    pixel := fun px py =>
      if 0 ≤ px ∧ px < dst.width ∧ 0 ≤ py ∧ py < dst.height ∧
          dx ≤ px ∧ px < dx + w ∧ dy ≤ py ∧ py < dy + h ∧
          0 ≤ sx + (px - dx) ∧ sx + (px - dx) < src.width ∧
          0 ≤ sy + (py - dy) ∧ sy + (py - dy) < src.height then
        src.pixel (sx + (px - dx)) (sy + (py - dy))
      else dst.pixel px py }

/-- The surfaces after one call recorded by the display: an allocation that
succeeds creates a blank surface of the requested size, a draw or a copy
changes its destination, and nothing else changes any pixel. -/
def display_call.render (call : display_call) (surfaces : guac_common_surface → pixel_grid) :
    guac_common_surface → pixel_grid :=
  match call with
  | display_call.alloc_buffer width height (some layer) =>
    fun surface =>
      if surface = layer.surface then pixel_grid.blank width height else surfaces surface
  | display_call.alloc_buffer _ _ none => surfaces
  | display_call.free_buffer _ => surfaces
  | display_call.surface_draw dst x y src =>
    fun surface => if surface = dst then (surfaces dst).draw x y src else surfaces surface
  | display_call.surface_copy src sx sy w h dst dx dy =>
    fun surface =>
      if surface = dst then (surfaces dst).copy dx dy (surfaces src) sx sy w h
      else surfaces surface

/-- The surfaces after all the calls recorded by the display, oldest first,
starting from the given surfaces. -/
def render (calls : List display_call) (surfaces : guac_common_surface → pixel_grid) :
    guac_common_surface → pixel_grid :=
  calls.foldl (fun rendered call => call.render rendered) surfaces

/-! ## Sessions with several bitmaps -/

/-- A session with its bitmaps: the context, and the bitmaps created so far in
order of creation; a bitmap is named by its position, and `none` stands for a
bitmap that has been destroyed. -/
structure world where
  context : rdpContext
  tiles : List (Option guac_rdp_bitmap)
deriving DecidableEq, Repr

/-- The live bitmap with the given handle, if any. -/
def world.tile (w : world) (handle : Nat) : Option guac_rdp_bitmap :=
  w.tiles[handle]?.getD none

/-- A call of the protocol layer in a session with several bitmaps: create a
bitmap, paint a bitmap at the given bounds, select a target (the bitmap
argument may be absent, which stands for `NULL`), or destroy a bitmap. -/
inductive command where
  | new (bitmap : guac_rdp_bitmap)
  | paint (handle : Nat) (left top right bottom : Nat)
  | setsurface (handle : Option Nat) (primary : Bool)
  | free (handle : Nat)
deriving DecidableEq, Repr

/-- Perform one call. There is no next state (`none`) when the call names a
bitmap that does not exist or has been destroyed, or when the callback
dereferences `NULL`. Destroying a bitmap calls `guac_rdp_bitmap_free` and
marks it destroyed. -/
def world.step (freerdp_image_copy : image_converter) (w : world) : command → Option world
  | command.new bitmap =>
    some
      { context := (guac_rdp_bitmap_new freerdp_image_copy w.context bitmap).context
        tiles := w.tiles ++ [some (guac_rdp_bitmap_new freerdp_image_copy w.context bitmap).bitmap] }
  | command.paint handle left top right bottom =>
    match w.tile handle with
    | none => none
    | some bitmap =>
      match guac_rdp_bitmap_paint w.context
          { bitmap with left := left, top := top, right := right, bottom := bottom } with
      | Except.error _ => none
      | Except.ok after =>
        some { context := after.context, tiles := w.tiles.set handle (some after.bitmap) }
  | command.setsurface none primary =>
    match guac_rdp_bitmap_setsurface w.context none primary with
    | Except.error _ => none
    | Except.ok after => some { context := after.context, tiles := w.tiles }
  | command.setsurface (some handle) primary =>
    match w.tile handle with
    | none => none
    | some bitmap =>
      match guac_rdp_bitmap_setsurface w.context (some bitmap) primary with
      | Except.error _ => none
      | Except.ok after =>
        some
          { context := after.context
            tiles := w.tiles.set handle (some (after.bitmap.getD bitmap)) }
  | command.free handle =>
    match w.tile handle with
    | none => none
    | some bitmap =>
      some { context := guac_rdp_bitmap_free w.context bitmap, tiles := w.tiles.set handle none }

/-- Whether the surface of the given bitmap's layer is the active target. -/
def world.is_target (w : world) (handle : Nat) : Bool :=
  match w.tile handle with
  | some bitmap =>
    match bitmap.layer with
    | some layer => decide (layer.surface = w.context.rdp_client.current_surface)
    | none => false
  | none => false

/-- Whether the call destroys the bitmap whose surface is the active target. -/
def world.frees_target (w : world) : command → Bool
  | command.free handle => w.is_target handle
  | _ => false

/-- Perform a sequence of calls, first call first. With `sparing` set, a call
that would destroy the bitmap whose surface is the active target is not
performed (there is no next state). -/
def world.run (freerdp_image_copy : image_converter) (sparing : Bool) :
    world → List command → Option world
  | w, [] => some w
  | w, call :: calls =>
    if sparing && w.frees_target call then none
    else
      match w.step freerdp_image_copy call with
      | none => none
      | some next => world.run freerdp_image_copy sparing next calls

/-- Whether the active target is a live surface: the display's default
surface, or the surface of the layer of a bitmap that has not been
destroyed. -/
def world.target_live (w : world) : Bool :=
  decide (w.context.rdp_client.current_surface = guac_common_surface.default_surface) ||
    w.tiles.any (fun tile =>
      match tile with
      | some bitmap =>
        match bitmap.layer with
        | some layer => decide (layer.surface = w.context.rdp_client.current_surface)
        | none => false
      | none => false)

/-! ## Concrete inputs -/

/-- A session in which the display has handed out no buffer yet and can hand
out two; the active target is the canvas. -/
def session : rdpContext :=
  { rdp_client :=
      { display := { next_index := 0, remaining := 2, calls := [] }
        current_surface := guac_common_surface.default_surface }
    next_addr := 64
    heap_calls := []
    log := [] }

/-- A 2 x 2 tile in the canonical format, with 16 bytes of pixel data, to be
painted in full at (0, 0). -/
def tile_T : guac_rdp_bitmap :=
  { left := 0, top := 0, right := 1, bottom := 1, width := 2, height := 2
    format := PIXEL_FORMAT_XRGB32
    data := some { addr := 16, bytes := [1, 2, 3, 0, 4, 5, 6, 0, 7, 8, 9, 0, 10, 11, 12, 0] }
    layer := none
    used := 0 }

/-- A 1 x 1 tile in the canonical format, with 4 bytes of pixel data, to be
painted at (3, 5). -/
def tile_U : guac_rdp_bitmap :=
  { left := 3, top := 5, right := 3, bottom := 5, width := 1, height := 1
    format := PIXEL_FORMAT_XRGB32
    data := some { addr := 32, bytes := [20, 21, 22, 0] }
    layer := none
    used := 0 }

/-- The session after `guac_rdp_bitmap_setsurface(context, tile_T, FALSE)`:
buffer 0 holds the pixels of `tile_T` and its surface is the active target. -/
def session_on_T : rdpContext :=
  { rdp_client :=
      { display :=
          { next_index := 1
            remaining := 1
            calls :=
              [display_call.alloc_buffer 2 2 (some ⟨0⟩),
               display_call.surface_draw (guac_common_surface.buffer_surface 0) 0 0
                 { data := { addr := 16
                             bytes := [1, 2, 3, 0, 4, 5, 6, 0, 7, 8, 9, 0, 10, 11, 12, 0] }
                   format := cairo_format_t.CAIRO_FORMAT_RGB24
                   width := 2, height := 2, stride := 8 }] }
        current_surface := guac_common_surface.buffer_surface 0 }
    next_addr := 64
    heap_calls := []
    log := [] }

/-- The bitmap `tile_T` after `guac_rdp_bitmap_setsurface(context, tile_T,
FALSE)`: its layer is buffer 0. -/
def tile_T_promoted : guac_rdp_bitmap :=
  { tile_T with layer := some ⟨0⟩ }

/-- A converter that always fails. -/
def failing_converter : image_converter :=
  fun _ _ _ _ => none

/-- A session whose display has no buffer left to hand out; the active target
is the canvas. -/
def session_exhausted : rdpContext :=
  { rdp_client :=
      { display := { next_index := 0, remaining := 0, calls := [] }
        current_surface := guac_common_surface.default_surface }
    next_addr := 64
    heap_calls := []
    log := [] }

/-- A 2 x 2 tile without pixel data that has been painted once. -/
def tile_empty : guac_rdp_bitmap :=
  { left := 0, top := 0, right := 1, bottom := 1, width := 2, height := 2
    format := PIXEL_FORMAT_XRGB32
    data := none
    layer := none
    used := 1 }

/-- FreeRDP's pixel format constant `PIXEL_FORMAT_RGB16`
(`freerdp/codec/color.h`): 16 bpp, type ARGB, channels 0/5/6/5. -/
def PIXEL_FORMAT_RGB16 : Nat := 0x10010565

/-- A 32768 x 32768 tile in a 16 bpp format over the given pixel data, as
handed to `guac_rdp_bitmap_new`. -/
def tile_huge (data : pixel_buffer) : guac_rdp_bitmap :=
  { left := 0, top := 0, right := 32767, bottom := 32767, width := 32768, height := 32768
    format := PIXEL_FORMAT_RGB16
    data := some data
    layer := none
    used := 0 }

/-- The bitmap `tile_T` with bounds one column wider than the tile: a draw
region of 3 x 2 pixels over 2 x 2 pixels of data. -/
def tile_T_overwide : guac_rdp_bitmap :=
  { tile_T with right := 2 }

/-- An 8 x 8 canvas, and every other surface, with nothing drawn yet. -/
def blank_surfaces : guac_common_surface → pixel_grid :=
  fun _ => pixel_grid.blank 8 8

/-! ## Auxiliary lemmas -/

/-- Converting a `UINT32` value below `2^31` to `int` does not change it. -/
theorem to_int_of_lt (n : Nat) (h : n < 2147483648) : to_int n = n := by
  unfold to_int
  omega

/-- Converting an integer that fits a 32-bit `int` does not change it. -/
theorem to_int_of_range (n : Int) (h1 : -2147483648 ≤ n) (h2 : n < 2147483648) :
    to_int n = n := by
  unfold to_int
  omega

/-- What `guac_rdp_bitmap_new` leaves in `layer` and `used`. -/
theorem new_layer_used (freerdp_image_copy : image_converter) (context : rdpContext)
    (bitmap : guac_rdp_bitmap) :
    (guac_rdp_bitmap_new freerdp_image_copy context bitmap).bitmap.layer = none ∧
    (guac_rdp_bitmap_new freerdp_image_copy context bitmap).bitmap.used = 0 := by
  simp [guac_rdp_bitmap_new]

/-- The function `guac_rdp_bitmap_new` writes neither the bounds nor the
dimensions of the bitmap. -/
theorem new_bounds (freerdp_image_copy : image_converter) (context : rdpContext)
    (bitmap : guac_rdp_bitmap) :
    (guac_rdp_bitmap_new freerdp_image_copy context bitmap).bitmap.left = bitmap.left ∧
    (guac_rdp_bitmap_new freerdp_image_copy context bitmap).bitmap.top = bitmap.top ∧
    (guac_rdp_bitmap_new freerdp_image_copy context bitmap).bitmap.right = bitmap.right ∧
    (guac_rdp_bitmap_new freerdp_image_copy context bitmap).bitmap.bottom = bitmap.bottom ∧
    (guac_rdp_bitmap_new freerdp_image_copy context bitmap).bitmap.width = bitmap.width ∧
    (guac_rdp_bitmap_new freerdp_image_copy context bitmap).bitmap.height = bitmap.height := by
  simp only [guac_rdp_bitmap_new]
  split <;> [split <;> [split <;> simp; simp]; simp]

/-- The function `guac_rdp_bitmap_new` leaves the RDP client data (display and
active target) as it found them. -/
theorem new_rdp_client (freerdp_image_copy : image_converter) (context : rdpContext)
    (bitmap : guac_rdp_bitmap) :
    (guac_rdp_bitmap_new freerdp_image_copy context bitmap).context.rdp_client =
      context.rdp_client := by
  simp only [guac_rdp_bitmap_new]
  split <;> [split <;> [split <;> simp [aligned_malloc, aligned_free]; simp]; simp]

/-- The function `guac_rdp_cache_bitmap` writes no field of the bitmap but
`layer`. -/
theorem cache_bitmap_fields (context : rdpContext) (bitmap : guac_rdp_bitmap)
    (after : outcome guac_rdp_bitmap)
    (h : guac_rdp_cache_bitmap context bitmap = Except.ok after) :
    after.bitmap = { bitmap with layer := after.bitmap.layer } ∧
    after.context.rdp_client.current_surface = context.rdp_client.current_surface := by
  simp only [guac_rdp_cache_bitmap] at h
  split at h
  · split at h
    · cases h
    · injection h with h
      subst h
      exact ⟨rfl, rfl⟩
  · injection h with h
    subst h
    exact ⟨rfl, rfl⟩

/-- A bitmap that has no layer and has not been painted is painted without
caching: the display only receives the direct draw of the data, if any. -/
theorem paint_unused (context : rdpContext) (bitmap : guac_rdp_bitmap)
    (hl : bitmap.layer = none) (hu : bitmap.used < 1) :
    guac_rdp_bitmap_paint context bitmap = Except.ok
      { ret := true
        context := context.set_display
          (match bitmap.data with
           | some data =>
             guac_common_surface_draw context.rdp_client.display
               guac_common_surface.default_surface (to_int bitmap.left) (to_int bitmap.top)
               (cairo_image_surface_create_for_data data cairo_format_t.CAIRO_FORMAT_RGB24
                 (to_int ((bitmap.right : Int) - (bitmap.left : Int) + 1))
                 (to_int ((bitmap.bottom : Int) - (bitmap.top : Int) + 1))
                 (to_int (4 * (bitmap.width : Int))))
           | none => context.rdp_client.display)
        bitmap := { bitmap with used := to_int (bitmap.used + 1) } } := by
  have hu2 : ¬ bitmap.used ≥ 1 := by omega
  simp [guac_rdp_bitmap_paint, hl, hu2]

/-- A bitmap that has a layer is painted by one copy from the layer's surface
onto the default surface; nothing else changes but the usage counter. -/
theorem paint_cached (context : rdpContext) (bitmap : guac_rdp_bitmap)
    (layer : guac_common_display_layer) (hl : bitmap.layer = some layer) :
    guac_rdp_bitmap_paint context bitmap = Except.ok
      { ret := true
        context := context.set_display
          (guac_common_surface_copy context.rdp_client.display layer.surface 0 0
            (to_int ((bitmap.right : Int) - (bitmap.left : Int) + 1))
            (to_int ((bitmap.bottom : Int) - (bitmap.top : Int) + 1))
            guac_common_surface.default_surface (to_int bitmap.left) (to_int bitmap.top))
        bitmap := { bitmap with used := to_int (bitmap.used + 1) } } := by
  simp [guac_rdp_bitmap_paint, hl]

/-- A bitmap without a layer that has been painted before is cached by the
next paint when the display has a buffer left: the display is asked for one
buffer of the bitmap's size, the data (if any) is drawn into it, and the same
call then draws the data (if any) directly onto the default surface. -/
theorem paint_promotes (context : rdpContext) (bitmap : guac_rdp_bitmap)
    (hl : bitmap.layer = none) (hu : 1 ≤ bitmap.used)
    (hr : 0 < context.rdp_client.display.remaining) :
    guac_rdp_bitmap_paint context bitmap = Except.ok
      { ret := true
        context := context.set_display
          { next_index := context.rdp_client.display.next_index + 1
            remaining := context.rdp_client.display.remaining - 1
            calls := context.rdp_client.display.calls ++
              display_call.alloc_buffer (to_int bitmap.width) (to_int bitmap.height)
                (some ⟨context.rdp_client.display.next_index⟩) ::
              (match bitmap.data with
               | some data =>
                 [display_call.surface_draw
                    (guac_common_surface.buffer_surface context.rdp_client.display.next_index)
                    0 0
                    { data := data
                      format := cairo_format_t.CAIRO_FORMAT_RGB24
                      width := to_int bitmap.width
                      height := to_int bitmap.height
                      stride := to_int (4 * (bitmap.width : Int)) },
                  display_call.surface_draw guac_common_surface.default_surface
                    (to_int bitmap.left) (to_int bitmap.top)
                    { data := data
                      format := cairo_format_t.CAIRO_FORMAT_RGB24
                      width := to_int ((bitmap.right : Int) - (bitmap.left : Int) + 1)
                      height := to_int ((bitmap.bottom : Int) - (bitmap.top : Int) + 1)
                      stride := to_int (4 * (bitmap.width : Int)) }]
               | none => []) }
        bitmap := { bitmap with
          layer := some ⟨context.rdp_client.display.next_index⟩
          used := to_int (bitmap.used + 1) } } := by
  have hr2 : context.rdp_client.display.remaining ≠ 0 := by omega
  cases hd : bitmap.data <;>
    simp [guac_rdp_bitmap_paint, guac_rdp_cache_bitmap, guac_common_display_alloc_buffer,
      hl, hu, hr2, hd, rdpContext.set_display, guac_common_surface_draw,
      cairo_image_surface_create_for_data, guac_common_display_layer.surface]

/-- A paint that reaches the caching step while the display has no buffer left
and the bitmap has pixel data dereferences the `NULL` buffer. -/
theorem paint_alloc_fails_data (context : rdpContext) (bitmap : guac_rdp_bitmap)
    (data : pixel_buffer) (hl : bitmap.layer = none) (hu : 1 ≤ bitmap.used)
    (hr : context.rdp_client.display.remaining = 0) (hd : bitmap.data = some data) :
    guac_rdp_bitmap_paint context bitmap = Except.error Fault.null_dereference := by
  simp [guac_rdp_bitmap_paint, guac_rdp_cache_bitmap, guac_common_display_alloc_buffer,
    hl, hu, hr, hd]

/-- A paint that reaches the caching step while the display has no buffer left
and the bitmap has no pixel data draws nothing and leaves `layer` NULL. -/
theorem paint_alloc_fails_no_data (context : rdpContext) (bitmap : guac_rdp_bitmap)
    (hl : bitmap.layer = none) (hu : 1 ≤ bitmap.used)
    (hr : context.rdp_client.display.remaining = 0) (hd : bitmap.data = none) :
    guac_rdp_bitmap_paint context bitmap = Except.ok
      { ret := true
        context := context.set_display
          { context.rdp_client.display with
            calls := context.rdp_client.display.calls ++
              [display_call.alloc_buffer (to_int bitmap.width) (to_int bitmap.height) none] }
        bitmap := { bitmap with used := to_int (bitmap.used + 1) } } := by
  cases bitmap
  simp only at hl hd
  subst hl hd
  simp [guac_rdp_bitmap_paint, guac_rdp_cache_bitmap, guac_common_display_alloc_buffer,
    hu, hr, rdpContext.set_display]

/-- Summary of `paint_unused`: the paint succeeds, the bitmap still has no
layer, and the display has handed out nothing. -/
theorem paint_unused_summary (context : rdpContext) (bitmap : guac_rdp_bitmap)
    (hl : bitmap.layer = none) (hu : bitmap.used < 1) :
    ∃ after : outcome guac_rdp_bitmap,
      guac_rdp_bitmap_paint context bitmap = Except.ok after ∧
      after.bitmap.layer = none ∧
      after.bitmap.used = to_int (bitmap.used + 1) ∧
      after.context.rdp_client.display.remaining = context.rdp_client.display.remaining ∧
      after.context.rdp_client.display.next_index = context.rdp_client.display.next_index ∧
      allocations after.context.rdp_client.display = allocations context.rdp_client.display := by
  refine ⟨_, paint_unused context bitmap hl hu, hl, rfl, ?_, ?_, ?_⟩ <;>
    cases hd : bitmap.data <;>
    simp [allocations, rdpContext.set_display, guac_common_surface_draw,
      display_call.is_alloc_buffer]

/-- Summary of `paint_promotes`: the paint succeeds, the bitmap's layer is the
buffer the display handed out, and that was the only request for a buffer. -/
theorem paint_promotes_summary (context : rdpContext) (bitmap : guac_rdp_bitmap)
    (hl : bitmap.layer = none) (hu : 1 ≤ bitmap.used)
    (hr : 0 < context.rdp_client.display.remaining) :
    ∃ after : outcome guac_rdp_bitmap,
      guac_rdp_bitmap_paint context bitmap = Except.ok after ∧
      after.bitmap.layer = some ⟨context.rdp_client.display.next_index⟩ ∧
      after.bitmap.used = to_int (bitmap.used + 1) ∧
      allocations after.context.rdp_client.display =
        allocations context.rdp_client.display + 1 := by
  refine ⟨_, paint_promotes context bitmap hl hu hr, rfl, rfl, ?_⟩
  cases hd : bitmap.data <;>
    simp [allocations, rdpContext.set_display, display_call.is_alloc_buffer,
      List.countP_cons]

/-- Every paint that returns has incremented `used` as a 32-bit `int` and
returns TRUE. -/
theorem paint_used (context : rdpContext) (bitmap : guac_rdp_bitmap)
    (after : outcome guac_rdp_bitmap)
    (h : guac_rdp_bitmap_paint context bitmap = Except.ok after) :
    after.bitmap.used = to_int (bitmap.used + 1) ∧ after.ret = true := by
  simp only [guac_rdp_bitmap_paint] at h
  split at h
  · cases h
  · rename_i cached hc
    injection h with h
    subst h
    split at hc
    · have := (cache_bitmap_fields context bitmap cached hc).1
      refine ⟨?_, rfl⟩
      simp only []
      rw [this]
    · injection hc with hc
      subst hc
      exact ⟨rfl, rfl⟩

/-- The increment of a 32-bit `int` below `INT_MAX` adds exactly one. -/
theorem to_int_succ (used : Int) (h1 : -2147483648 ≤ used) (h2 : used < 2147483647) :
    to_int (used + 1) = used + 1 :=
  to_int_of_range _ (by omega) (by omega)

/-- A paint returns unless it reaches the caching step with pixel data while
the display has no buffer left. -/
theorem paint_returns (context : rdpContext) (bitmap : guac_rdp_bitmap)
    (h : bitmap.layer ≠ none ∨ bitmap.used < 1 ∨ bitmap.data = none ∨
      0 < context.rdp_client.display.remaining) :
    ∃ after : outcome guac_rdp_bitmap,
      guac_rdp_bitmap_paint context bitmap = Except.ok after := by
  cases hl : bitmap.layer with
  | some layer => exact ⟨_, paint_cached context bitmap layer hl⟩
  | none =>
    by_cases hu : bitmap.used < 1
    · exact ⟨_, paint_unused context bitmap hl hu⟩
    · by_cases hr : 0 < context.rdp_client.display.remaining
      · exact ⟨_, paint_promotes context bitmap hl (by omega) hr⟩
      · rcases h with h | h | h | h
        · exact absurd hl h
        · exact absurd h hu
        · exact ⟨_, paint_alloc_fails_no_data context bitmap hl (by omega) (by omega) h⟩
        · exact absurd h hr

/-- A run of paints on a bitmap that has a layer succeeds, asks the display
for nothing and keeps the layer. -/
theorem paint_run_cached (n : Nat) (context : rdpContext) (bitmap : guac_rdp_bitmap)
    (layer : guac_common_display_layer) (hl : bitmap.layer = some layer) :
    ∃ after : outcome guac_rdp_bitmap,
      paint_run n context bitmap = Except.ok after ∧
      after.bitmap.layer = some layer ∧
      allocations after.context.rdp_client.display = allocations context.rdp_client.display := by
  induction n generalizing context bitmap with
  | zero => exact ⟨_, rfl, hl, rfl⟩
  | succ n ih =>
    simp only [paint_run, paint_cached context bitmap layer hl]
    obtain ⟨after, h1, h2, h4⟩ := ih
      (context.set_display
        (guac_common_surface_copy context.rdp_client.display layer.surface 0 0
          (to_int ((bitmap.right : Int) - (bitmap.left : Int) + 1))
          (to_int ((bitmap.bottom : Int) - (bitmap.top : Int) + 1))
          guac_common_surface.default_surface (to_int bitmap.left) (to_int bitmap.top)))
      { bitmap with used := to_int (bitmap.used + 1) } hl
    refine ⟨after, h1, h2, ?_⟩
    rw [h4]
    simp [allocations, rdpContext.set_display, guac_common_surface_copy,
      display_call.is_alloc_buffer]

/-- A run of `n` paints that returns has added `n` to `used`, provided `used`
is a 32-bit `int` that stays within `INT_MAX` throughout the run. -/
theorem paint_run_used (n : Nat) (context : rdpContext) (bitmap : guac_rdp_bitmap)
    (after : outcome guac_rdp_bitmap)
    (h : paint_run n context bitmap = Except.ok after)
    (h1 : -2147483648 ≤ bitmap.used) (h2 : bitmap.used + n ≤ 2147483647) :
    after.bitmap.used = bitmap.used + n := by
  induction n generalizing context bitmap with
  | zero =>
    simp only [paint_run] at h
    injection h with h
    subst h
    simp
  | succ n ih =>
    simp only [paint_run] at h
    cases hp : guac_rdp_bitmap_paint context bitmap with
    | error fault => simp [hp] at h
    | ok first =>
      simp only [hp] at h
      have hu : first.bitmap.used = bitmap.used + 1 := by
        rw [(paint_used context bitmap first hp).1]
        exact to_int_succ _ h1 (by push_cast at h2; omega)
      rw [ih first.context first.bitmap h (by omega) (by push_cast at h2 ⊢; omega), hu]
      push_cast
      ring

/-- A run of `k` paints of a bitmap just created, the display having a buffer
left: it succeeds, and the display has been asked for a buffer once if `k` is
at least two and not at all otherwise. -/
theorem paint_run_created (freerdp_image_copy : image_converter)
    (context : rdpContext) (bitmap : guac_rdp_bitmap) (k : Nat)
    (hr : 0 < context.rdp_client.display.remaining) :
    ∃ after : outcome guac_rdp_bitmap,
      paint_run k (guac_rdp_bitmap_new freerdp_image_copy context bitmap).context
        (guac_rdp_bitmap_new freerdp_image_copy context bitmap).bitmap = Except.ok after ∧
      allocations after.context.rdp_client.display =
        allocations context.rdp_client.display + (if 2 ≤ k then 1 else 0) ∧
      after.bitmap.layer =
        (if 2 ≤ k then some ⟨context.rdp_client.display.next_index⟩ else none) := by
  obtain ⟨hl, hu⟩ := new_layer_used freerdp_image_copy context bitmap
  have hc := new_rdp_client freerdp_image_copy context bitmap
  generalize (guac_rdp_bitmap_new freerdp_image_copy context bitmap).context = c0 at hc ⊢
  generalize (guac_rdp_bitmap_new freerdp_image_copy context bitmap).bitmap = b0 at hl hu ⊢
  match k with
  | 0 => exact ⟨_, rfl, by simp [hc], by simp [hl]⟩
  | 1 =>
    simp only [paint_run, paint_unused c0 b0 hl (by omega)]
    refine ⟨_, rfl, ?_, ?_⟩
    · cases hd : b0.data <;>
        simp [allocations, rdpContext.set_display, guac_common_surface_draw,
          display_call.is_alloc_buffer, hc]
    · simp [hl]
  | n + 2 =>
    obtain ⟨a1, e1, l1, u1, r1, i1, al1⟩ := paint_unused_summary c0 b0 hl (by omega)
    have hu1 : a1.bitmap.used = 1 := by
      rw [u1, hu]
      exact to_int_succ 0 (by omega) (by omega)
    obtain ⟨a2, e2, l2, -, al2⟩ := paint_promotes_summary a1.context a1.bitmap l1 (by omega)
      (by rw [r1, hc]; exact hr)
    obtain ⟨a3, e3, l3, al3⟩ := paint_run_cached n a2.context a2.bitmap _ l2
    refine ⟨a3, by simp only [paint_run, e1, e2, e3], ?_, ?_⟩
    · rw [al3, al2, al1, hc]; simp
    · rw [l3, i1, hc]; simp

/-- Selecting a bitmap that has a layer only makes that layer's surface the
active target. -/
theorem setsurface_cached (context : rdpContext) (bitmap : guac_rdp_bitmap)
    (layer : guac_common_display_layer) (hl : bitmap.layer = some layer) :
    guac_rdp_bitmap_setsurface context (some bitmap) false = Except.ok
      { ret := true
        context := context.set_current_surface layer.surface
        bitmap := some bitmap } := by
  simp [guac_rdp_bitmap_setsurface, hl]

/-- Selecting a bitmap without a layer while the display has a buffer left
caches it first, whatever its usage count, and makes the new layer's surface
the active target. -/
theorem setsurface_promotes (context : rdpContext) (bitmap : guac_rdp_bitmap)
    (hl : bitmap.layer = none) (hr : 0 < context.rdp_client.display.remaining) :
    guac_rdp_bitmap_setsurface context (some bitmap) false = Except.ok
      { ret := true
        context :=
          (context.set_display
            { next_index := context.rdp_client.display.next_index + 1
              remaining := context.rdp_client.display.remaining - 1
              calls := context.rdp_client.display.calls ++
                display_call.alloc_buffer (to_int bitmap.width) (to_int bitmap.height)
                  (some ⟨context.rdp_client.display.next_index⟩) ::
                (match bitmap.data with
                 | some data =>
                   [display_call.surface_draw
                      (guac_common_surface.buffer_surface context.rdp_client.display.next_index)
                      0 0
                      { data := data
                        format := cairo_format_t.CAIRO_FORMAT_RGB24
                        width := to_int bitmap.width
                        height := to_int bitmap.height
                        stride := to_int (4 * (bitmap.width : Int)) }]
                 | none => []) }).set_current_surface
            (guac_common_surface.buffer_surface context.rdp_client.display.next_index)
        bitmap := some { bitmap with layer := some ⟨context.rdp_client.display.next_index⟩ } } := by
  have hr2 : context.rdp_client.display.remaining ≠ 0 := by omega
  cases hd : bitmap.data <;>
    simp [guac_rdp_bitmap_setsurface, guac_rdp_cache_bitmap, guac_common_display_alloc_buffer,
      hl, hr2, hd, rdpContext.set_display, rdpContext.set_current_surface,
      guac_common_surface_draw, cairo_image_surface_create_for_data,
      guac_common_display_layer.surface]

/-- Selecting a bitmap without a layer while the display has no buffer left
dereferences a `NULL` buffer: in `guac_rdp_cache_bitmap` when there is pixel
data, in `layer->surface` when there is none. -/
theorem setsurface_alloc_fails (context : rdpContext) (bitmap : guac_rdp_bitmap)
    (hl : bitmap.layer = none) (hr : context.rdp_client.display.remaining = 0) :
    guac_rdp_bitmap_setsurface context (some bitmap) false =
      Except.error Fault.null_dereference := by
  cases hd : bitmap.data <;>
    simp [guac_rdp_bitmap_setsurface, guac_rdp_cache_bitmap, guac_common_display_alloc_buffer,
      hl, hr, hd]

/-- The concrete session `session_on_T` and bitmap `tile_T_promoted` are what
`guac_rdp_bitmap_setsurface(context, tile_T, FALSE)` produces from `session`. -/
theorem session_on_T_reached :
    guac_rdp_bitmap_setsurface session (some tile_T) false =
      Except.ok { ret := true, context := session_on_T, bitmap := some tile_T_promoted } := by
  rfl

/-- A call on a bitmap that has a layer succeeds, keeps the layer and asks the
display for no buffer. -/
theorem tile_call_cached (call : tile_call) (context : rdpContext) (bitmap : guac_rdp_bitmap)
    (layer : guac_common_display_layer) (hl : bitmap.layer = some layer) :
    ∃ after : outcome guac_rdp_bitmap,
      call.apply context bitmap = Except.ok after ∧
      after.bitmap.layer = some layer ∧
      allocations after.context.rdp_client.display = allocations context.rdp_client.display := by
  cases call with
  | paint left top right bottom =>
    refine ⟨_, paint_cached context _ layer hl, hl, ?_⟩
    simp [allocations, rdpContext.set_display, guac_common_surface_copy,
      display_call.is_alloc_buffer]
  | setsurface primary =>
    cases primary with
    | true => exact ⟨_, rfl, hl, rfl⟩
    | false =>
      simp only [tile_call.apply, setsurface_cached context bitmap layer hl]
      exact ⟨_, rfl, hl, rfl⟩

/-- A call on a bitmap without a layer, the display having a buffer left,
succeeds; either the bitmap still has no layer and the display has handed out
nothing, or the bitmap has a layer and the display was asked for it once. -/
theorem tile_call_uncached (call : tile_call) (context : rdpContext) (bitmap : guac_rdp_bitmap)
    (hl : bitmap.layer = none) (hr : 0 < context.rdp_client.display.remaining) :
    ∃ after : outcome guac_rdp_bitmap,
      call.apply context bitmap = Except.ok after ∧
      ((after.bitmap.layer = none ∧
          allocations after.context.rdp_client.display =
            allocations context.rdp_client.display ∧
          0 < after.context.rdp_client.display.remaining) ∨
       (after.bitmap.layer ≠ none ∧
          allocations after.context.rdp_client.display =
            allocations context.rdp_client.display + 1)) := by
  cases call with
  | paint left top right bottom =>
    simp only [tile_call.apply]
    by_cases hu : bitmap.used < 1
    · obtain ⟨after, h1, h2, -, h4, -, h6⟩ := paint_unused_summary context
        { bitmap with left := left, top := top, right := right, bottom := bottom } hl hu
      exact ⟨after, h1, Or.inl ⟨h2, h6, by rw [h4]; exact hr⟩⟩
    · obtain ⟨after, h1, h2, -, h4⟩ := paint_promotes_summary context
        { bitmap with left := left, top := top, right := right, bottom := bottom } hl
        (by show 1 ≤ bitmap.used; omega) hr
      exact ⟨after, h1, Or.inr ⟨by rw [h2]; simp, h4⟩⟩
  | setsurface primary =>
    cases primary with
    | true => exact ⟨_, rfl, Or.inl ⟨hl, rfl, hr⟩⟩
    | false =>
      simp only [tile_call.apply, setsurface_promotes context bitmap hl hr]
      refine ⟨_, rfl, Or.inr ⟨by simp, ?_⟩⟩
      cases hd : bitmap.data <;>
        simp [allocations, rdpContext.set_display, rdpContext.set_current_surface,
          display_call.is_alloc_buffer, List.countP_cons]

/-- A sequence of calls on a bitmap that has a layer succeeds, keeps the layer
and asks the display for no buffer. -/
theorem tile_run_cached (calls : List tile_call) (context : rdpContext)
    (bitmap : guac_rdp_bitmap) (layer : guac_common_display_layer)
    (hl : bitmap.layer = some layer) :
    ∃ after : outcome guac_rdp_bitmap,
      tile_run calls context bitmap = Except.ok after ∧
      after.bitmap.layer = some layer ∧
      allocations after.context.rdp_client.display = allocations context.rdp_client.display := by
  induction calls generalizing context bitmap with
  | nil => exact ⟨_, rfl, hl, rfl⟩
  | cons call calls ih =>
    obtain ⟨a1, e1, l1, al1⟩ := tile_call_cached call context bitmap layer hl
    obtain ⟨a2, e2, l2, al2⟩ := ih a1.context a1.bitmap l1
    exact ⟨a2, by simp only [tile_run, e1, e2], l2, by rw [al2, al1]⟩

/-- A sequence of calls on a bitmap without a layer, the display having a
buffer left, succeeds, and the display is asked for a buffer at most once:
not at all if the bitmap still has no layer, once if it has one. -/
theorem tile_run_uncached (calls : List tile_call) (context : rdpContext)
    (bitmap : guac_rdp_bitmap) (hl : bitmap.layer = none)
    (hr : 0 < context.rdp_client.display.remaining) :
    ∃ after : outcome guac_rdp_bitmap,
      tile_run calls context bitmap = Except.ok after ∧
      ((after.bitmap.layer = none ∧
          allocations after.context.rdp_client.display =
            allocations context.rdp_client.display ∧
          0 < after.context.rdp_client.display.remaining) ∨
       (after.bitmap.layer ≠ none ∧
          allocations after.context.rdp_client.display =
            allocations context.rdp_client.display + 1)) := by
  induction calls generalizing context bitmap with
  | nil => exact ⟨_, rfl, Or.inl ⟨hl, rfl, hr⟩⟩
  | cons call calls ih =>
    obtain ⟨a1, e1, h1⟩ := tile_call_uncached call context bitmap hl hr
    rcases h1 with ⟨l1, al1, r1⟩ | ⟨l1, al1⟩
    · obtain ⟨a2, e2, h2⟩ := ih a1.context a1.bitmap l1 r1
      refine ⟨a2, by simp only [tile_run, e1, e2], ?_⟩
      rw [al1] at h2
      exact h2
    · obtain ⟨layer, hlayer⟩ := Option.ne_none_iff_exists'.mp l1
      obtain ⟨a2, e2, l2, al2⟩ := tile_run_cached calls a1.context a1.bitmap layer hlayer
      exact ⟨a2, by simp only [tile_run, e1, e2],
        Or.inr ⟨by rw [l2]; simp, by rw [al2, al1]⟩⟩

/-- Running two sequences one after the other is running their concatenation. -/
theorem tile_run_append (pre post : List tile_call) (context : rdpContext)
    (bitmap : guac_rdp_bitmap) :
    tile_run (pre ++ post) context bitmap =
      (match tile_run pre context bitmap with
       | Except.error fault => Except.error fault
       | Except.ok mid => tile_run post mid.context mid.bitmap) := by
  induction pre generalizing context bitmap with
  | nil => rfl
  | cons call pre ih =>
    simp only [List.cons_append, tile_run]
    cases call.apply context bitmap with
    | error fault => rfl
    | ok after => exact ih after.context after.bitmap

/-- Every paint that returns leaves the active target as it was. -/
theorem paint_current_surface (context : rdpContext) (bitmap : guac_rdp_bitmap)
    (after : outcome guac_rdp_bitmap)
    (h : guac_rdp_bitmap_paint context bitmap = Except.ok after) :
    after.context.rdp_client.current_surface = context.rdp_client.current_surface := by
  simp only [guac_rdp_bitmap_paint] at h
  split at h
  · cases h
  · rename_i cached hc
    injection h with h
    subst h
    split at hc
    · exact (cache_bitmap_fields context bitmap cached hc).2
    · injection hc with hc
      subst hc
      rfl

/-- The function `guac_rdp_cache_bitmap` returns unless the display has no
buffer left while the bitmap has pixel data. -/
theorem cache_bitmap_returns (context : rdpContext) (bitmap : guac_rdp_bitmap)
    (h : bitmap.data = none ∨ 0 < context.rdp_client.display.remaining) :
    ∃ after : outcome guac_rdp_bitmap,
      guac_rdp_cache_bitmap context bitmap = Except.ok after := by
  cases hd : bitmap.data with
  | none => simp [guac_rdp_cache_bitmap, hd]
  | some data =>
    have hr : context.rdp_client.display.remaining ≠ 0 := by
      rcases h with h | h
      · rw [hd] at h; cases h
      · omega
    simp [guac_rdp_cache_bitmap, guac_common_display_alloc_buffer, hd, hr]

/-- A paint of a bitmap that has pixel data but no layer ends, when it
returns, with the direct draw of the data onto the default surface at
(`left`, `top`): an image of the draw region's width and height whose stride
is four times the bitmap's width. It returns when the bitmap has not been
painted before or the display has a buffer left; the calls before the draw
are those of the caching step. -/
theorem paint_direct_draw (context : rdpContext) (bitmap : guac_rdp_bitmap)
    (data : pixel_buffer) (hl : bitmap.layer = none) (hd : bitmap.data = some data)
    (h : bitmap.used < 1 ∨ 0 < context.rdp_client.display.remaining) :
    ∃ (after : outcome guac_rdp_bitmap) (caching : List display_call),
      guac_rdp_bitmap_paint context bitmap = Except.ok after ∧
      after.context.rdp_client.display.calls =
        context.rdp_client.display.calls ++ caching ++
          [display_call.surface_draw guac_common_surface.default_surface
            (to_int bitmap.left) (to_int bitmap.top)
            { data := data
              format := cairo_format_t.CAIRO_FORMAT_RGB24
              width := to_int ((bitmap.right : Int) - (bitmap.left : Int) + 1)
              height := to_int ((bitmap.bottom : Int) - (bitmap.top : Int) + 1)
              stride := to_int (4 * (bitmap.width : Int)) }] := by
  by_cases hu : bitmap.used < 1
  · refine ⟨_, [], paint_unused context bitmap hl hu, ?_⟩
    simp [hd, rdpContext.set_display, guac_common_surface_draw,
      cairo_image_surface_create_for_data]
  · have hr : 0 < context.rdp_client.display.remaining := by
      rcases h with h | h
      · exact absurd h hu
      · exact h
    refine ⟨_, [display_call.alloc_buffer (to_int bitmap.width) (to_int bitmap.height)
        (some ⟨context.rdp_client.display.next_index⟩),
      display_call.surface_draw
        (guac_common_surface.buffer_surface context.rdp_client.display.next_index) 0 0
        { data := data
          format := cairo_format_t.CAIRO_FORMAT_RGB24
          width := to_int bitmap.width
          height := to_int bitmap.height
          stride := to_int (4 * (bitmap.width : Int)) }],
      paint_promotes context bitmap hl (by omega) hr, ?_⟩
    simp [hd, rdpContext.set_display]

/-- When `guac_rdp_bitmap_new` converts (data present, format not canonical),
the heap receives exactly two calls: the request for a 16-aligned buffer of
`width * height * 4` bytes in `UINT32` arithmetic, and one release. -/
theorem new_heap_calls (freerdp_image_copy : image_converter) (context : rdpContext)
    (bitmap : guac_rdp_bitmap) (data : pixel_buffer) (hd : bitmap.data = some data)
    (hf : bitmap.format ≠ PIXEL_FORMAT_XRGB32) :
    ∃ release : heap_call,
      (guac_rdp_bitmap_new freerdp_image_copy context bitmap).context.heap_calls =
        context.heap_calls ++
          [heap_call.aligned_malloc
             (to_uint32 ((bitmap.width : Int) * (bitmap.height : Int) * 4)) 16
             context.next_addr,
           release] := by
  cases hc : freerdp_image_copy bitmap.width bitmap.height data.bytes bitmap.format with
  | none =>
    refine ⟨heap_call.aligned_free context.next_addr, ?_⟩
    simp [guac_rdp_bitmap_new, hd, hf, hc, aligned_malloc, aligned_free]
  | some bytes =>
    refine ⟨heap_call.aligned_free data.addr, ?_⟩
    simp [guac_rdp_bitmap_new, hd, hf, hc, aligned_malloc, aligned_free]

/-- An image reads in bounds as soon as each of its rows does. -/
theorem reads_in_bounds_of_rows (image : cairo_surface_t)
    (h : ∀ j : Nat, (j : Int) < image.height →
      0 ≤ (j : Int) * image.stride ∧
      (j : Int) * image.stride + 4 * image.width ≤ (image.data.bytes.length : Int)) :
    image.reads_in_bounds = true := by
  unfold cairo_surface_t.reads_in_bounds
  rw [List.all_eq_true]
  intro j hj
  have hj2 : j < image.height.toNat := List.mem_range.mp hj
  have hj3 : (j : Int) < image.height := by omega
  obtain ⟨h1, h2⟩ := h j hj3
  simp [h1, h2]

/-- The rows of the draw region lie inside a buffer of `width * height * 4`
bytes when the region is no wider and no higher than the bitmap. -/
theorem region_rows_in_bounds (W H w h j : Int) (hW : 0 ≤ W) (hw : w ≤ W) (hh : h ≤ H)
    (hj0 : 0 ≤ j) (hj : j < h) :
    0 ≤ j * (4 * W) ∧ j * (4 * W) + 4 * w ≤ W * H * 4 := by
  have h1 : 0 ≤ j * W := Int.mul_nonneg hj0 hW
  have h2 : (j + 1) * W ≤ H * W := Int.mul_le_mul_of_nonneg_right (by omega) hW
  constructor
  · nlinarith
  · nlinarith

/-- Rendering a list of calls followed by another is rendering the second
over the result of the first. -/
theorem render_append (first second : List display_call)
    (surfaces : guac_common_surface → pixel_grid) :
    render (first ++ second) surfaces = render second (render first surfaces) := by
  simp [render, List.foldl_append]

/-- The function `guac_rdp_cache_bitmap` on a bitmap with pixel data, the
display having a buffer left: one buffer of the bitmap's size is requested
and the whole data is drawn into it at (0, 0). -/
theorem cache_bitmap_data (context : rdpContext) (bitmap : guac_rdp_bitmap)
    (data : pixel_buffer) (hd : bitmap.data = some data)
    (hr : 0 < context.rdp_client.display.remaining) :
    guac_rdp_cache_bitmap context bitmap = Except.ok
      { ret := true
        context := context.set_display
          { next_index := context.rdp_client.display.next_index + 1
            remaining := context.rdp_client.display.remaining - 1
            calls := context.rdp_client.display.calls ++
              [display_call.alloc_buffer (to_int bitmap.width) (to_int bitmap.height)
                 (some ⟨context.rdp_client.display.next_index⟩),
               display_call.surface_draw
                 (guac_common_surface.buffer_surface context.rdp_client.display.next_index)
                 0 0
                 { data := data
                   format := cairo_format_t.CAIRO_FORMAT_RGB24
                   width := to_int bitmap.width
                   height := to_int bitmap.height
                   stride := to_int (4 * (bitmap.width : Int)) }] }
        bitmap := { bitmap with layer := some ⟨context.rdp_client.display.next_index⟩ } } := by
  have hr2 : context.rdp_client.display.remaining ≠ 0 := by omega
  simp [guac_rdp_cache_bitmap, guac_common_display_alloc_buffer, hd, hr2,
    rdpContext.set_display, guac_common_surface_draw, cairo_image_surface_create_for_data,
    guac_common_display_layer.surface]

/-- Filling a fresh `W x H` buffer with the whole data and copying its
rectangle `(0, 0, w, h)` to (`L`, `T`) of the default surface gives the
default surface the pixels that drawing the data as a `w x h` image of the
same stride at (`L`, `T`) gives it, when `w ≤ W` and `h ≤ H`. -/
theorem round_trip_pixels (surfaces : guac_common_surface → pixel_grid) (index : Nat)
    (data : pixel_buffer) (W H stride w h L T : Int) (hw : w ≤ W) (hh : h ≤ H) (x y : Int) :
    (render
        [display_call.alloc_buffer W H (some ⟨index⟩),
         display_call.surface_draw (guac_common_surface.buffer_surface index) 0 0
           { data := data, format := cairo_format_t.CAIRO_FORMAT_RGB24
             width := W, height := H, stride := stride },
         display_call.surface_copy (guac_common_surface.buffer_surface index) 0 0 w h
           guac_common_surface.default_surface L T]
        surfaces guac_common_surface.default_surface).pixel x y =
      (render
        [display_call.surface_draw guac_common_surface.default_surface L T
           { data := data, format := cairo_format_t.CAIRO_FORMAT_RGB24
             width := w, height := h, stride := stride }]
        surfaces guac_common_surface.default_surface).pixel x y := by
  simp only [render, List.foldl_cons, List.foldl_nil, display_call.render,
    guac_common_display_layer.surface, pixel_grid.copy, pixel_grid.draw, pixel_grid.blank,
    if_true, reduceCtorEq, if_false, zero_add, sub_zero]
  by_cases hc : 0 ≤ x ∧ x < (surfaces guac_common_surface.default_surface).width ∧
      0 ≤ y ∧ y < (surfaces guac_common_surface.default_surface).height ∧
      L ≤ x ∧ x < L + w ∧ T ≤ y ∧ y < T + h
  · have hc2 : 0 ≤ x ∧ x < (surfaces guac_common_surface.default_surface).width ∧
        0 ≤ y ∧ y < (surfaces guac_common_surface.default_surface).height ∧
        L ≤ x ∧ x < L + w ∧ T ≤ y ∧ y < T + h ∧
        0 ≤ x - L ∧ x - L < W ∧ 0 ≤ y - T ∧ y - T < H := by
      obtain ⟨h1, h2, h3, h4, h5, h6, h7, h8⟩ := hc
      refine ⟨h1, h2, h3, h4, h5, h6, h7, h8, ?_, ?_, ?_, ?_⟩ <;> omega
    have hc3 : 0 ≤ x - L ∧ x - L < W ∧ 0 ≤ y - T ∧ y - T < H ∧
        0 ≤ x - L ∧ x - L < W ∧ 0 ≤ y - T ∧ y - T < H := by
      obtain ⟨-, -, -, -, -, -, -, -, h9, h10, h11, h12⟩ := hc2
      exact ⟨h9, h10, h11, h12, h9, h10, h11, h12⟩
    rw [if_pos hc2, if_pos hc, if_pos hc3]
    rfl
  · have hc2 : ¬ (0 ≤ x ∧ x < (surfaces guac_common_surface.default_surface).width ∧
        0 ≤ y ∧ y < (surfaces guac_common_surface.default_surface).height ∧
        L ≤ x ∧ x < L + w ∧ T ≤ y ∧ y < T + h ∧
        0 ≤ x - L ∧ x - L < W ∧ 0 ≤ y - T ∧ y - T < H) := by
      rintro ⟨h1, h2, h3, h4, h5, h6, h7, h8, -⟩
      exact hc ⟨h1, h2, h3, h4, h5, h6, h7, h8⟩
    rw [if_neg hc2, if_neg hc]

/-- The two ways of `round_trip_pixels` leave the default surface with the
same size. -/
theorem round_trip_size (surfaces : guac_common_surface → pixel_grid) (index : Nat)
    (data : pixel_buffer) (W H stride w h L T : Int) :
    (render
        [display_call.alloc_buffer W H (some ⟨index⟩),
         display_call.surface_draw (guac_common_surface.buffer_surface index) 0 0
           { data := data, format := cairo_format_t.CAIRO_FORMAT_RGB24
             width := W, height := H, stride := stride },
         display_call.surface_copy (guac_common_surface.buffer_surface index) 0 0 w h
           guac_common_surface.default_surface L T]
        surfaces guac_common_surface.default_surface).width =
      (render
        [display_call.surface_draw guac_common_surface.default_surface L T
           { data := data, format := cairo_format_t.CAIRO_FORMAT_RGB24
             width := w, height := h, stride := stride }]
        surfaces guac_common_surface.default_surface).width ∧
    (render
        [display_call.alloc_buffer W H (some ⟨index⟩),
         display_call.surface_draw (guac_common_surface.buffer_surface index) 0 0
           { data := data, format := cairo_format_t.CAIRO_FORMAT_RGB24
             width := W, height := H, stride := stride },
         display_call.surface_copy (guac_common_surface.buffer_surface index) 0 0 w h
           guac_common_surface.default_surface L T]
        surfaces guac_common_surface.default_surface).height =
      (render
        [display_call.surface_draw guac_common_surface.default_surface L T
           { data := data, format := cairo_format_t.CAIRO_FORMAT_RGB24
             width := w, height := h, stride := stride }]
        surfaces guac_common_surface.default_surface).height := by
  simp [render, display_call.render, guac_common_display_layer.surface, pixel_grid.copy,
    pixel_grid.draw]

/-- The pixel grids at work: after `guac_rdp_bitmap_setsurface` on `tile_T`
and a paint of the promoted tile, the canvas shows the four pixels of the
tile in its top left corner and nothing beside them. -/
theorem render_tile_T_example :
    ∃ after : outcome guac_rdp_bitmap,
      guac_rdp_bitmap_paint session_on_T tile_T_promoted = Except.ok after ∧
      (render after.context.rdp_client.display.calls blank_surfaces
        guac_common_surface.default_surface).pixel 0 0 = some (1, 2, 3) ∧
      (render after.context.rdp_client.display.calls blank_surfaces
        guac_common_surface.default_surface).pixel 1 0 = some (4, 5, 6) ∧
      (render after.context.rdp_client.display.calls blank_surfaces
        guac_common_surface.default_surface).pixel 0 1 = some (7, 8, 9) ∧
      (render after.context.rdp_client.display.calls blank_surfaces
        guac_common_surface.default_surface).pixel 1 1 = some (10, 11, 12) ∧
      (render after.context.rdp_client.display.calls blank_surfaces
        guac_common_surface.default_surface).pixel 2 1 = none :=
  ⟨_, rfl, by decide, by decide, by decide, by decide, by decide⟩

/-- The active target is live exactly when it is the default surface or the
surface of the layer of some live bitmap. -/
theorem target_live_iff (w : world) :
    w.target_live = true ↔
      (w.context.rdp_client.current_surface = guac_common_surface.default_surface ∨
       ∃ (handle : Nat) (bitmap : guac_rdp_bitmap) (layer : guac_common_display_layer),
         w.tile handle = some bitmap ∧ bitmap.layer = some layer ∧
         layer.surface = w.context.rdp_client.current_surface) := by
  unfold world.target_live
  rw [Bool.or_eq_true, decide_eq_true_iff, List.any_eq_true]
  constructor
  · rintro (h | ⟨tile, hmem, htile⟩)
    · exact Or.inl h
    · right
      obtain ⟨handle, hget⟩ := List.mem_iff_getElem?.mp hmem
      cases tile with
      | none => simp at htile
      | some bitmap =>
        cases hlayer : bitmap.layer with
        | none => simp [hlayer] at htile
        | some layer =>
          simp [hlayer] at htile
          exact ⟨handle, bitmap, layer, by simp [world.tile, hget], hlayer, htile⟩
  · rintro (h | ⟨handle, bitmap, layer, htile, hlayer, hsurface⟩)
    · exact Or.inl h
    · right
      refine ⟨some bitmap, ?_, by simp [hlayer, hsurface]⟩
      apply List.mem_iff_getElem?.mpr
      refine ⟨handle, ?_⟩
      unfold world.tile at htile
      cases hget : w.tiles[handle]? with
      | none => simp [hget] at htile
      | some tile =>
        simp [hget] at htile
        rw [htile]

/-- Replacing the entry of one handle leaves the bitmaps of the other handles
as they were. -/
theorem tile_set_ne (w : world) (context : rdpContext) (handle other : Nat)
    (entry : Option guac_rdp_bitmap) (hne : handle ≠ other) :
    ({ context := context, tiles := w.tiles.set handle entry } : world).tile other =
      w.tile other := by
  simp [world.tile, List.getElem?_set_ne hne]

/-- Replacing the entry of a live handle makes that entry the bitmap of the
handle. -/
theorem tile_set_self (w : world) (context : rdpContext) (handle : Nat)
    (entry : Option guac_rdp_bitmap) (bitmap : guac_rdp_bitmap)
    (hlive : w.tile handle = some bitmap) :
    ({ context := context, tiles := w.tiles.set handle entry } : world).tile handle = entry := by
  have hlt : handle < w.tiles.length := by
    by_contra hge
    have : w.tiles[handle]? = none := List.getElem?_eq_none (by omega)
    simp [world.tile, this] at hlive
  simp [world.tile, List.getElem?_set_self hlt]

/-- Creating a bitmap leaves the bitmaps of the existing handles as they
were. -/
theorem tile_append (w : world) (context : rdpContext) (handle : Nat)
    (entry : Option guac_rdp_bitmap) (bitmap : guac_rdp_bitmap)
    (hlive : w.tile handle = some bitmap) :
    ({ context := context, tiles := w.tiles ++ [entry] } : world).tile handle = some bitmap := by
  have hlt : handle < w.tiles.length := by
    by_contra hge
    have : w.tiles[handle]? = none := List.getElem?_eq_none (by omega)
    simp [world.tile, this] at hlive
  simpa [world.tile, List.getElem?_append_left hlt] using hlive

/-- A paint that returns keeps the layer of a bitmap that has one. -/
theorem paint_keeps_layer (context : rdpContext) (bitmap : guac_rdp_bitmap)
    (layer : guac_common_display_layer) (after : outcome guac_rdp_bitmap)
    (hl : bitmap.layer = some layer)
    (h : guac_rdp_bitmap_paint context bitmap = Except.ok after) :
    after.bitmap.layer = some layer := by
  rw [paint_cached context bitmap layer hl] at h
  injection h with h
  subst h
  exact hl

/-- When `guac_rdp_bitmap_setsurface` with `primary = FALSE` returns for a
bitmap, the bitmap it leaves has a layer whose surface is the active target. -/
theorem setsurface_selects (context : rdpContext) (bitmap : guac_rdp_bitmap)
    (after : outcome (Option guac_rdp_bitmap))
    (h : guac_rdp_bitmap_setsurface context (some bitmap) false = Except.ok after) :
    ∃ (selected : guac_rdp_bitmap) (layer : guac_common_display_layer),
      after.bitmap = some selected ∧ selected.layer = some layer ∧
      after.context.rdp_client.current_surface = layer.surface := by
  cases hl : bitmap.layer with
  | some layer =>
    rw [setsurface_cached context bitmap layer hl] at h
    injection h with h
    subst h
    exact ⟨bitmap, layer, rfl, hl, rfl⟩
  | none =>
    by_cases hr : context.rdp_client.display.remaining = 0
    · rw [setsurface_alloc_fails context bitmap hl hr] at h
      cases h
    · rw [setsurface_promotes context bitmap hl (by omega)] at h
      injection h with h
      subst h
      exact ⟨_, ⟨context.rdp_client.display.next_index⟩, rfl, rfl, rfl⟩

/-- One call that does not destroy the bitmap whose surface is the active
target keeps the active target live. -/
theorem step_target_live (freerdp_image_copy : image_converter) (w next : world)
    (call : command) (hlive : w.target_live = true) (hspare : w.frees_target call = false)
    (hstep : w.step freerdp_image_copy call = some next) :
    next.target_live = true := by
  rw [target_live_iff] at hlive ⊢
  cases call with
  | new bitmap =>
    simp only [world.step, Option.some.injEq] at hstep
    subst hstep
    simp only [new_rdp_client]
    rcases hlive with h | ⟨handle, tile, layer, h1, h2, h3⟩
    · exact Or.inl h
    · exact Or.inr ⟨handle, tile, layer, tile_append w _ handle _ tile h1, h2, h3⟩
  | paint handle left top right bottom =>
    simp only [world.step] at hstep
    cases ht : w.tile handle with
    | none => simp [ht] at hstep
    | some bitmap =>
      simp only [ht] at hstep
      cases hp : guac_rdp_bitmap_paint w.context
          { bitmap with left := left, top := top, right := right, bottom := bottom } with
      | error fault => simp [hp] at hstep
      | ok after =>
        simp only [hp, Option.some.injEq] at hstep
        subst hstep
        have hcs := paint_current_surface _ _ after hp
        simp only [hcs]
        rcases hlive with h | ⟨other, tile, layer, h1, h2, h3⟩
        · exact Or.inl h
        · right
          by_cases he : handle = other
          · subst he
            rw [ht] at h1
            injection h1 with h1
            subst h1
            exact ⟨handle, after.bitmap, layer, tile_set_self w _ handle _ bitmap ht,
              paint_keeps_layer _ _ layer after (by exact h2) hp, h3⟩
          · exact ⟨other, tile, layer, by rw [tile_set_ne w _ handle other _ he]; exact h1,
              h2, h3⟩
  | setsurface handle primary =>
    cases handle with
    | none =>
      cases primary with
      | true =>
        simp only [world.step, guac_rdp_bitmap_setsurface, if_true, Option.some.injEq] at hstep
        subst hstep
        exact Or.inl rfl
      | false =>
        simp only [world.step, guac_rdp_bitmap_setsurface, Bool.false_eq_true, if_false,
          Option.some.injEq] at hstep
        subst hstep
        exact hlive
    | some handle =>
      simp only [world.step] at hstep
      cases ht : w.tile handle with
      | none => simp [ht] at hstep
      | some bitmap =>
        simp only [ht] at hstep
        cases hs : guac_rdp_bitmap_setsurface w.context (some bitmap) primary with
        | error fault => simp [hs] at hstep
        | ok after =>
          simp only [hs, Option.some.injEq] at hstep
          subst hstep
          cases primary with
          | true =>
            simp only [guac_rdp_bitmap_setsurface, if_true] at hs
            injection hs with hs
            subst hs
            exact Or.inl rfl
          | false =>
            obtain ⟨selected, layer, h1, h2, h3⟩ := setsurface_selects _ _ after hs
            right
            refine ⟨handle, selected, layer, ?_, h2, h3.symm⟩
            rw [tile_set_self w _ handle _ bitmap ht, h1]
            rfl
  | free handle =>
    simp only [world.step] at hstep
    cases ht : w.tile handle with
    | none => simp [ht] at hstep
    | some bitmap =>
      simp only [ht, Option.some.injEq] at hstep
      subst hstep
      have hcs : (guac_rdp_bitmap_free w.context bitmap).rdp_client.current_surface =
          w.context.rdp_client.current_surface := by
        simp only [guac_rdp_bitmap_free]
        split <;> rfl
      simp only [hcs]
      rcases hlive with h | ⟨other, tile, layer, h1, h2, h3⟩
      · exact Or.inl h
      · right
        have he : handle ≠ other := by
          intro he
          subst he
          simp [world.frees_target, world.is_target, h1, h2, h3] at hspare
        exact ⟨other, tile, layer, by rw [tile_set_ne w _ handle other _ he]; exact h1, h2, h3⟩

/-- A sparing run from a state whose active target is live ends in a state
whose active target is live. -/
theorem run_target_live (freerdp_image_copy : image_converter) (calls : List command)
    (w final : world) (hlive : w.target_live = true)
    (hrun : world.run freerdp_image_copy true w calls = some final) :
    final.target_live = true := by
  induction calls generalizing w with
  | nil =>
    simp only [world.run, Option.some.injEq] at hrun
    subst hrun
    exact hlive
  | cons call calls ih =>
    simp only [world.run, Bool.true_and] at hrun
    cases hf : w.frees_target call with
    | true => simp [hf] at hrun
    | false =>
      simp only [hf, Bool.false_eq_true, if_false] at hrun
      cases hs : w.step freerdp_image_copy call with
      | none => simp [hs] at hrun
      | some next =>
        simp only [hs] at hrun
        exact ih next (step_target_live freerdp_image_copy w next call hlive hf hs) hrun

/-- A paint of a bitmap with neither layer nor pixel data, the display having
no buffer left, returns with the layer still NULL; if the bitmap had been
painted before, the display was asked for a buffer once more. -/
theorem paint_refused_no_data (context : rdpContext) (bitmap : guac_rdp_bitmap)
    (hl : bitmap.layer = none) (hr : context.rdp_client.display.remaining = 0)
    (hd : bitmap.data = none) :
    ∃ after : outcome guac_rdp_bitmap,
      guac_rdp_bitmap_paint context bitmap = Except.ok after ∧
      after.bitmap.layer = none ∧
      (1 ≤ bitmap.used →
        allocations after.context.rdp_client.display =
          allocations context.rdp_client.display + 1) := by
  by_cases hu : bitmap.used < 1
  · exact ⟨_, paint_unused context bitmap hl hu, hl, fun h => absurd h (by omega)⟩
  · refine ⟨_, paint_alloc_fails_no_data context bitmap hl (by omega) hr hd, hl, fun _ => ?_⟩
    simp [allocations, rdpContext.set_display, display_call.is_alloc_buffer]

/-! ## The claims -/

/-- Claim C1: the first `guac_rdp_bitmap_paint` of a bitmap just created by
`guac_rdp_bitmap_new` returns TRUE without promoting: the display is asked for
no buffer (its allocation count, next index and resources are unchanged),
`layer` is still NULL afterwards, and the only call the display receives is,
when the bitmap has pixel data, the direct draw of that data onto the default
surface (nothing at all when it has none). -/
theorem C1_first_paint_does_not_promote (freerdp_image_copy : image_converter)
    (context : rdpContext) (bitmap : guac_rdp_bitmap) :
    ∃ after : outcome guac_rdp_bitmap,
      guac_rdp_bitmap_paint (guac_rdp_bitmap_new freerdp_image_copy context bitmap).context
        (guac_rdp_bitmap_new freerdp_image_copy context bitmap).bitmap = Except.ok after ∧
      after.ret = true ∧
      after.bitmap.layer = none ∧
      allocations after.context.rdp_client.display =
        allocations (guac_rdp_bitmap_new freerdp_image_copy context bitmap).context.rdp_client.display ∧
      after.context.rdp_client.display.next_index =
        (guac_rdp_bitmap_new freerdp_image_copy context bitmap).context.rdp_client.display.next_index ∧
      after.context.rdp_client.display.remaining =
        (guac_rdp_bitmap_new freerdp_image_copy context bitmap).context.rdp_client.display.remaining ∧
      after.context.rdp_client.display.calls =
        (guac_rdp_bitmap_new freerdp_image_copy context bitmap).context.rdp_client.display.calls ++
          (match (guac_rdp_bitmap_new freerdp_image_copy context bitmap).bitmap.data with
           | some data =>
             [display_call.surface_draw guac_common_surface.default_surface
               (to_int bitmap.left) (to_int bitmap.top)
               { data := data
                 format := cairo_format_t.CAIRO_FORMAT_RGB24
                 width := to_int ((bitmap.right : Int) - (bitmap.left : Int) + 1)
                 height := to_int ((bitmap.bottom : Int) - (bitmap.top : Int) + 1)
                 stride := to_int (4 * (bitmap.width : Int)) }]
           | none => []) := by
  obtain ⟨hl, hu⟩ := new_layer_used freerdp_image_copy context bitmap
  refine ⟨_, paint_unused _ _ hl (by omega), rfl, ?_⟩
  obtain ⟨h1, h2, h3, h4, h5, -⟩ := new_bounds freerdp_image_copy context bitmap
  cases hd : (guac_rdp_bitmap_new freerdp_image_copy context bitmap).bitmap.data <;>
    simp [hd, hl, h1, h2, h3, h4, h5, allocations, rdpContext.set_display,
      guac_common_surface_draw, cairo_image_surface_create_for_data,
      display_call.is_alloc_buffer]

/-- Claim C2: for a bitmap created by `guac_rdp_bitmap_new` while the display
has a buffer left, every run of `k` consecutive `guac_rdp_bitmap_paint` calls
succeeds; the display has been asked for no buffer after fewer than two calls
and for exactly one buffer after two calls and after any larger number of
calls, and `layer` is that one buffer (non-NULL) after the second call and
after every later call, while it is still NULL before the second call. -/
theorem C2_promotion_once_at_second_paint (freerdp_image_copy : image_converter)
    (context : rdpContext) (bitmap : guac_rdp_bitmap) (k : Nat)
    (hr : 0 < context.rdp_client.display.remaining) :
    ∃ after : outcome guac_rdp_bitmap,
      paint_run k (guac_rdp_bitmap_new freerdp_image_copy context bitmap).context
        (guac_rdp_bitmap_new freerdp_image_copy context bitmap).bitmap = Except.ok after ∧
      allocations after.context.rdp_client.display =
        allocations context.rdp_client.display + (if 2 ≤ k then 1 else 0) ∧
      after.bitmap.layer =
        (if 2 ≤ k then some ⟨context.rdp_client.display.next_index⟩ else none) := by
  exact paint_run_created freerdp_image_copy context bitmap k hr

/-- Witness of C2 on `tile_T`: three paints after creation. -/
theorem C2_promotion_once_at_second_paint_witness :
    0 < session.rdp_client.display.remaining ∧
    ∃ after : outcome guac_rdp_bitmap,
      paint_run 3 (guac_rdp_bitmap_new failing_converter session tile_T).context
        (guac_rdp_bitmap_new failing_converter session tile_T).bitmap = Except.ok after ∧
      allocations after.context.rdp_client.display =
        allocations session.rdp_client.display + (if 2 ≤ 3 then 1 else 0) ∧
      after.bitmap.layer =
        (if 2 ≤ 3 then some ⟨session.rdp_client.display.next_index⟩ else none) :=
  ⟨by decide, C2_promotion_once_at_second_paint failing_converter session tile_T 3 (by decide)⟩

/-- Claim C3, evaluated where it fails: the second paint of `tile_T` performs
the promotion (afterwards `layer` is buffer 0, which was allocated and filled
during that call), yet the drawing step of the same call is a direct draw of
the transient pixel data onto the default surface, because it tests the local
`buffer` read before the promotion; no copy from the layer's surface is
issued. -/
theorem C3_promoting_paint_draws_from_data :
    ∃ first after : outcome guac_rdp_bitmap,
      guac_rdp_bitmap_paint (guac_rdp_bitmap_new failing_converter session tile_T).context
        (guac_rdp_bitmap_new failing_converter session tile_T).bitmap = Except.ok first ∧
      first.bitmap.layer = none ∧
      guac_rdp_bitmap_paint first.context first.bitmap = Except.ok after ∧
      after.bitmap.layer = some ⟨0⟩ ∧
      after.context.rdp_client.display.calls =
        first.context.rdp_client.display.calls ++
          [display_call.alloc_buffer 2 2 (some ⟨0⟩),
           display_call.surface_draw (guac_common_surface.buffer_surface 0) 0 0
             { data := { addr := 16, bytes := [1, 2, 3, 0, 4, 5, 6, 0, 7, 8, 9, 0, 10, 11, 12, 0] }
               format := cairo_format_t.CAIRO_FORMAT_RGB24
               width := 2, height := 2, stride := 8 },
           display_call.surface_draw guac_common_surface.default_surface 0 0
             { data := { addr := 16, bytes := [1, 2, 3, 0, 4, 5, 6, 0, 7, 8, 9, 0, 10, 11, 12, 0] }
               format := cairo_format_t.CAIRO_FORMAT_RGB24
               width := 2, height := 2, stride := 8 }] :=
  ⟨_, _, rfl, by decide, rfl, by decide, by decide⟩

/-- Claim C4, as stated, fails: after `guac_rdp_bitmap_setsurface` has made
the surface of `tile_T` the active target, the first paint of `tile_U` draws
onto the default surface, which is not the active target. -/
theorem C4_paint_ignores_active_target :
    ∃ (selected : outcome (Option guac_rdp_bitmap)) (after : outcome guac_rdp_bitmap),
      guac_rdp_bitmap_setsurface session (some tile_T) false = Except.ok selected ∧
      selected.context.rdp_client.current_surface = guac_common_surface.buffer_surface 0 ∧
      guac_rdp_bitmap_paint selected.context tile_U = Except.ok after ∧
      after.context.rdp_client.display.calls =
        selected.context.rdp_client.display.calls ++
          [display_call.surface_draw guac_common_surface.default_surface 3 5
             { data := { addr := 32, bytes := [20, 21, 22, 0] }
               format := cairo_format_t.CAIRO_FORMAT_RGB24
               width := 1, height := 1, stride := 4 }] ∧
      guac_common_surface.default_surface ≠ selected.context.rdp_client.current_surface :=
  ⟨_, _, rfl, by decide, rfl, by decide, by decide⟩

/-- Claim C4, amended: every `guac_rdp_bitmap_paint` call that returns draws
onto the display's default surface, whatever the active target is. The calls
it issues are those of the caching step (a request for a buffer and the fill
of that new buffer), followed by the drawing step: a copy from the layer's
surface onto the default surface when the bitmap had a layer, otherwise a
direct draw of the pixel data onto the default surface when there is data,
otherwise nothing. The active target is neither changed nor read: with any
other active target the call does the same. -/
theorem C4_paint_draws_on_default_surface (context : rdpContext) (bitmap : guac_rdp_bitmap)
    (surface : guac_common_surface) (after : outcome guac_rdp_bitmap)
    (h : guac_rdp_bitmap_paint context bitmap = Except.ok after) :
    (∃ caching : List display_call,
      after.context.rdp_client.display.calls =
        context.rdp_client.display.calls ++ caching ++
          (match bitmap.layer, bitmap.data with
           | some layer, _ =>
             [display_call.surface_copy layer.surface 0 0
               (to_int ((bitmap.right : Int) - (bitmap.left : Int) + 1))
               (to_int ((bitmap.bottom : Int) - (bitmap.top : Int) + 1))
               guac_common_surface.default_surface (to_int bitmap.left) (to_int bitmap.top)]
           | none, some data =>
             [display_call.surface_draw guac_common_surface.default_surface
               (to_int bitmap.left) (to_int bitmap.top)
               { data := data
                 format := cairo_format_t.CAIRO_FORMAT_RGB24
                 width := to_int ((bitmap.right : Int) - (bitmap.left : Int) + 1)
                 height := to_int ((bitmap.bottom : Int) - (bitmap.top : Int) + 1)
                 stride := to_int (4 * (bitmap.width : Int)) }]
           | none, none => []) ∧
      ∀ call ∈ caching, call.is_alloc_buffer = true ∨
        call.destination = some (guac_common_surface.buffer_surface
          context.rdp_client.display.next_index)) ∧
    after.context.rdp_client.current_surface = context.rdp_client.current_surface ∧
    guac_rdp_bitmap_paint (context.set_current_surface surface) bitmap =
      Except.ok { after with context := after.context.set_current_surface surface } := by
  cases hl : bitmap.layer with
  | some layer =>
    rw [paint_cached context bitmap layer hl] at h
    rw [paint_cached _ bitmap layer hl]
    injection h with h
    subst h
    refine ⟨⟨[], ?_, by simp⟩, rfl, rfl⟩
    simp [rdpContext.set_display, guac_common_surface_copy]
  | none =>
    by_cases hu : bitmap.used < 1
    · rw [paint_unused context bitmap hl hu] at h
      rw [paint_unused _ bitmap hl hu]
      injection h with h
      subst h
      refine ⟨⟨[], ?_, by simp⟩, rfl, ?_⟩
      · cases hd : bitmap.data <;>
          simp [rdpContext.set_display, guac_common_surface_draw,
            cairo_image_surface_create_for_data]
      · cases hd : bitmap.data <;> rfl
    · have hu1 : 1 ≤ bitmap.used := by omega
      by_cases hr : context.rdp_client.display.remaining = 0
      · cases hd : bitmap.data with
        | some data =>
          rw [paint_alloc_fails_data context bitmap data hl hu1 hr hd] at h
          cases h
        | none =>
          rw [paint_alloc_fails_no_data context bitmap hl hu1 hr hd] at h
          rw [paint_alloc_fails_no_data (context.set_current_surface surface) bitmap hl hu1
            (by simpa [rdpContext.set_current_surface] using hr) hd]
          injection h with h
          subst h
          refine ⟨⟨[display_call.alloc_buffer (to_int bitmap.width) (to_int bitmap.height)
            none], ?_, by simp [display_call.is_alloc_buffer]⟩, rfl, rfl⟩
          simp [rdpContext.set_display]
      · have hr1 : 0 < context.rdp_client.display.remaining := by omega
        rw [paint_promotes context bitmap hl hu1 hr1] at h
        rw [paint_promotes (context.set_current_surface surface) bitmap hl hu1
          (by simpa [rdpContext.set_current_surface] using hr1)]
        injection h with h
        subst h
        cases hd : bitmap.data with
        | some data =>
          refine ⟨⟨[display_call.alloc_buffer (to_int bitmap.width) (to_int bitmap.height)
              (some ⟨context.rdp_client.display.next_index⟩),
            display_call.surface_draw
              (guac_common_surface.buffer_surface context.rdp_client.display.next_index) 0 0
              { data := data
                format := cairo_format_t.CAIRO_FORMAT_RGB24
                width := to_int bitmap.width
                height := to_int bitmap.height
                stride := to_int (4 * (bitmap.width : Int)) }], ?_, ?_⟩, rfl, ?_⟩
          · simp [rdpContext.set_display]
          · simp [display_call.is_alloc_buffer, display_call.destination]
          · simp [rdpContext.set_display, rdpContext.set_current_surface]
        | none =>
          refine ⟨⟨[display_call.alloc_buffer (to_int bitmap.width) (to_int bitmap.height)
              (some ⟨context.rdp_client.display.next_index⟩)], ?_, ?_⟩, rfl, ?_⟩
          · simp [rdpContext.set_display]
          · simp [display_call.is_alloc_buffer]
          · simp [rdpContext.set_display, rdpContext.set_current_surface]

/-- Witness of C4 (amended): the first paint of `tile_U` while the surface of
`tile_T` is the active target. -/
theorem C4_paint_draws_on_default_surface_witness :
    ∃ after : outcome guac_rdp_bitmap,
      guac_rdp_bitmap_paint session_on_T tile_U = Except.ok after ∧
      (∃ caching : List display_call,
        after.context.rdp_client.display.calls =
          session_on_T.rdp_client.display.calls ++ caching ++
            (match tile_U.layer, tile_U.data with
             | some layer, _ =>
               [display_call.surface_copy layer.surface 0 0
                 (to_int ((tile_U.right : Int) - (tile_U.left : Int) + 1))
                 (to_int ((tile_U.bottom : Int) - (tile_U.top : Int) + 1))
                 guac_common_surface.default_surface (to_int tile_U.left) (to_int tile_U.top)]
             | none, some data =>
               [display_call.surface_draw guac_common_surface.default_surface
                 (to_int tile_U.left) (to_int tile_U.top)
                 { data := data
                   format := cairo_format_t.CAIRO_FORMAT_RGB24
                   width := to_int ((tile_U.right : Int) - (tile_U.left : Int) + 1)
                   height := to_int ((tile_U.bottom : Int) - (tile_U.top : Int) + 1)
                   stride := to_int (4 * (tile_U.width : Int)) }]
             | none, none => []) ∧
        ∀ call ∈ caching, call.is_alloc_buffer = true ∨
          call.destination = some (guac_common_surface.buffer_surface
            session_on_T.rdp_client.display.next_index)) ∧
      after.context.rdp_client.current_surface = session_on_T.rdp_client.current_surface ∧
      guac_rdp_bitmap_paint
          (session_on_T.set_current_surface guac_common_surface.default_surface) tile_U =
        Except.ok { after with
          context := after.context.set_current_surface guac_common_surface.default_surface } :=
  ⟨_, rfl,
    C4_paint_draws_on_default_surface session_on_T tile_U guac_common_surface.default_surface
      _ rfl⟩

/-- Claim C5, as stated, fails: `tile_T_promoted` holds buffer 0, and two
`guac_rdp_bitmap_free` calls on it invoke `free_buffer` on buffer 0 twice. -/
theorem C5_second_free_releases_again :
    tile_T_promoted.layer = some ⟨0⟩ ∧
    releases session_on_T.rdp_client.display ⟨0⟩ = 0 ∧
    releases (guac_rdp_bitmap_free session_on_T tile_T_promoted).rdp_client.display ⟨0⟩ = 1 ∧
    releases (guac_rdp_bitmap_free (guac_rdp_bitmap_free session_on_T tile_T_promoted)
      tile_T_promoted).rdp_client.display ⟨0⟩ = 2 := by
  decide

/-- Claim C5, amended: every `guac_rdp_bitmap_free` call invokes the display's
`free_buffer` exactly once on the bitmap's layer when the bitmap is promoted
and not at all when it is not (and never on another layer); it changes nothing
else in the context and does not write the bitmap, so a second call on the
same bitmap invokes `free_buffer` on the same layer once more. -/
theorem C5_free_releases_layer_once_per_call (context : rdpContext) (bitmap : guac_rdp_bitmap)
    (layer : guac_common_display_layer) :
    releases (guac_rdp_bitmap_free context bitmap).rdp_client.display layer =
      releases context.rdp_client.display layer + (if bitmap.layer = some layer then 1 else 0) ∧
    releases (guac_rdp_bitmap_free (guac_rdp_bitmap_free context bitmap) bitmap).rdp_client.display
        layer =
      releases context.rdp_client.display layer + (if bitmap.layer = some layer then 2 else 0) ∧
    guac_rdp_bitmap_free context bitmap =
      context.set_display
        { context.rdp_client.display with
          calls := context.rdp_client.display.calls ++
            (match bitmap.layer with
             | some buffer => [display_call.free_buffer buffer]
             | none => []) } := by
  cases hl : bitmap.layer with
  | none => simp [guac_rdp_bitmap_free, hl, rdpContext.set_display]
  | some buffer =>
    by_cases hb : buffer = layer
    · simp [guac_rdp_bitmap_free, hl, hb, releases, rdpContext.set_display,
        guac_common_display_free_buffer, List.count_append]
    · have hb2 : ¬ layer = buffer := fun h => hb h.symm
      simp [guac_rdp_bitmap_free, hl, hb, hb2, releases, rdpContext.set_display,
        guac_common_display_free_buffer, List.count_append, List.count_cons]

/-- Claim C6: take a bitmap created by `guac_rdp_bitmap_new` while the display
has a buffer left, and any finite sequence of paints (at any bounds) and
`guac_rdp_bitmap_setsurface` calls (primary or not) on it, split anywhere
into an earlier part `pre` and a later part `post`. The whole sequence
succeeds; the display is asked for at most one buffer in all (none while
`layer` is NULL, exactly one once it is not); and if `layer` is non-NULL
after `pre`, it has the same value after `post`: no later call changes it or
sets it back to NULL. -/
theorem C6_at_most_one_promotion (freerdp_image_copy : image_converter)
    (context : rdpContext) (bitmap : guac_rdp_bitmap) (pre post : List tile_call)
    (hr : 0 < context.rdp_client.display.remaining) :
    ∃ mid after : outcome guac_rdp_bitmap,
      tile_run pre (guac_rdp_bitmap_new freerdp_image_copy context bitmap).context
        (guac_rdp_bitmap_new freerdp_image_copy context bitmap).bitmap = Except.ok mid ∧
      tile_run post mid.context mid.bitmap = Except.ok after ∧
      tile_run (pre ++ post) (guac_rdp_bitmap_new freerdp_image_copy context bitmap).context
        (guac_rdp_bitmap_new freerdp_image_copy context bitmap).bitmap = Except.ok after ∧
      allocations after.context.rdp_client.display ≤
        allocations context.rdp_client.display + 1 ∧
      allocations after.context.rdp_client.display =
        allocations context.rdp_client.display +
          (if after.bitmap.layer = none then 0 else 1) ∧
      (mid.bitmap.layer = none ∨ after.bitmap.layer = mid.bitmap.layer) := by
  obtain ⟨hl, -⟩ := new_layer_used freerdp_image_copy context bitmap
  have hc := new_rdp_client freerdp_image_copy context bitmap
  generalize (guac_rdp_bitmap_new freerdp_image_copy context bitmap).context = c0 at hc ⊢
  generalize (guac_rdp_bitmap_new freerdp_image_copy context bitmap).bitmap = b0 at hl ⊢
  obtain ⟨mid, e1, h1⟩ := tile_run_uncached pre c0 b0 hl (by rw [hc]; exact hr)
  rw [hc] at h1
  rcases h1 with ⟨l1, al1, r1⟩ | ⟨l1, al1⟩
  · obtain ⟨after, e2, h2⟩ := tile_run_uncached post mid.context mid.bitmap l1 r1
    refine ⟨mid, after, e1, e2, by simp only [tile_run_append, e1, e2], ?_, ?_, Or.inl l1⟩
    · rcases h2 with ⟨-, al2, -⟩ | ⟨-, al2⟩ <;> omega
    · rcases h2 with ⟨l2, al2, -⟩ | ⟨l2, al2⟩
      · rw [al2, al1]; simp [l2]
      · rw [al2, al1]; simp [l2]
  · obtain ⟨layer, hlayer⟩ := Option.ne_none_iff_exists'.mp l1
    obtain ⟨after, e2, l2, al2⟩ := tile_run_cached post mid.context mid.bitmap layer hlayer
    refine ⟨mid, after, e1, e2, by simp only [tile_run_append, e1, e2], ?_, ?_, Or.inr ?_⟩
    · omega
    · rw [al2, al1]; simp [l2]
    · rw [l2, hlayer]

/-- Witness of C6 on `tile_T`: a paint, a selection as target, a return to the
primary target, then two paints at other bounds. -/
theorem C6_at_most_one_promotion_witness :
    0 < session.rdp_client.display.remaining ∧
    ∃ mid after : outcome guac_rdp_bitmap,
      tile_run [tile_call.paint 0 0 1 1, tile_call.setsurface false]
        (guac_rdp_bitmap_new failing_converter session tile_T).context
        (guac_rdp_bitmap_new failing_converter session tile_T).bitmap = Except.ok mid ∧
      tile_run [tile_call.setsurface true, tile_call.paint 4 4 5 5, tile_call.paint 0 0 0 0]
        mid.context mid.bitmap = Except.ok after ∧
      tile_run ([tile_call.paint 0 0 1 1, tile_call.setsurface false] ++
          [tile_call.setsurface true, tile_call.paint 4 4 5 5, tile_call.paint 0 0 0 0])
        (guac_rdp_bitmap_new failing_converter session tile_T).context
        (guac_rdp_bitmap_new failing_converter session tile_T).bitmap = Except.ok after ∧
      allocations after.context.rdp_client.display ≤
        allocations session.rdp_client.display + 1 ∧
      allocations after.context.rdp_client.display =
        allocations session.rdp_client.display +
          (if after.bitmap.layer = none then 0 else 1) ∧
      (mid.bitmap.layer = none ∨ after.bitmap.layer = mid.bitmap.layer) :=
  ⟨by decide,
   C6_at_most_one_promotion failing_converter session tile_T
     [tile_call.paint 0 0 1 1, tile_call.setsurface false]
     [tile_call.setsurface true, tile_call.paint 4 4 5 5, tile_call.paint 0 0 0 0]
     (by decide)⟩

/-- Claim C7: `guac_rdp_bitmap_setsurface` with `primary = FALSE` and a NULL
bitmap returns TRUE and only logs a message: the RDP client data (the active
target `current_surface` and the display with its buffers and the calls it
received, hence no allocation) and the heap are exactly as before, and no
bitmap is produced or changed. -/
theorem C7_setsurface_null_bitmap_is_noop (context : rdpContext) :
    ∃ after : outcome (Option guac_rdp_bitmap),
      guac_rdp_bitmap_setsurface context none false = Except.ok after ∧
      after.ret = true ∧
      after.bitmap = none ∧
      after.context.rdp_client.current_surface = context.rdp_client.current_surface ∧
      after.context.rdp_client = context.rdp_client ∧
      allocations after.context.rdp_client.display = allocations context.rdp_client.display ∧
      after.context.next_addr = context.next_addr ∧
      after.context.heap_calls = context.heap_calls ∧
      after.context.log =
        context.log ++ ["NULL bitmap found in bitmap_setsurface instruction."] :=
  ⟨_, rfl, rfl, rfl, rfl, rfl, rfl, rfl, rfl, rfl⟩

/-- Claim C8: for a non-NULL bitmap without a layer, whatever its usage count,
`guac_rdp_bitmap_setsurface` with `primary = FALSE` (the display having a
buffer left) returns TRUE after requesting exactly one buffer of the bitmap's
width and height, filling it from the pixel data when there is data, and
storing it in `layer`; the other fields of the bitmap, `used` among them, are
unchanged, and the active target is the surface of that layer. For a bitmap
that already has a layer the display receives no call and the active target
becomes the surface of the existing layer. The dimensions reach the display
as C `int`s, which are the bitmap's width and height when these are below
`2^31`. -/
theorem C8_setsurface_promotes_immediately (context : rdpContext) (bitmap : guac_rdp_bitmap) :
    (bitmap.layer = none → 0 < context.rdp_client.display.remaining →
      ∃ (after : outcome (Option guac_rdp_bitmap)) (layer : guac_common_display_layer),
        guac_rdp_bitmap_setsurface context (some bitmap) false = Except.ok after ∧
        after.ret = true ∧
        layer = ⟨context.rdp_client.display.next_index⟩ ∧
        after.bitmap = some { bitmap with layer := some layer } ∧
        after.bitmap.map guac_rdp_bitmap.used = some bitmap.used ∧
        after.context.rdp_client.display.calls =
          context.rdp_client.display.calls ++
            display_call.alloc_buffer (to_int bitmap.width) (to_int bitmap.height) (some layer) ::
            (match bitmap.data with
             | some data =>
               [display_call.surface_draw layer.surface 0 0
                  { data := data
                    format := cairo_format_t.CAIRO_FORMAT_RGB24
                    width := to_int bitmap.width
                    height := to_int bitmap.height
                    stride := to_int (4 * (bitmap.width : Int)) }]
             | none => []) ∧
        allocations after.context.rdp_client.display =
          allocations context.rdp_client.display + 1 ∧
        after.context.rdp_client.current_surface = layer.surface) ∧
    (∀ layer : guac_common_display_layer, bitmap.layer = some layer →
      ∃ after : outcome (Option guac_rdp_bitmap),
        guac_rdp_bitmap_setsurface context (some bitmap) false = Except.ok after ∧
        after.ret = true ∧
        after.bitmap = some bitmap ∧
        after.context.rdp_client.display = context.rdp_client.display ∧
        after.context.rdp_client.current_surface = layer.surface) ∧
    (bitmap.width < 2147483648 → bitmap.height < 2147483648 →
      to_int bitmap.width = bitmap.width ∧ to_int bitmap.height = bitmap.height) := by
  refine ⟨?_, ?_, fun hw hh => ⟨to_int_of_lt _ hw, to_int_of_lt _ hh⟩⟩
  · intro hl hr
    refine ⟨_, ⟨context.rdp_client.display.next_index⟩,
      setsurface_promotes context bitmap hl hr, rfl, rfl, rfl, rfl, ?_, ?_, rfl⟩
    · cases hd : bitmap.data <;>
        simp [rdpContext.set_display, rdpContext.set_current_surface,
          guac_common_display_layer.surface]
    · cases hd : bitmap.data <;>
        simp [allocations, rdpContext.set_display, rdpContext.set_current_surface,
          display_call.is_alloc_buffer, List.countP_cons]
  · intro layer hl
    exact ⟨_, setsurface_cached context bitmap layer hl, rfl, rfl, rfl, rfl⟩

/-- Witness of C8: selecting `tile_T` in `session` (no layer yet, never
painted) and selecting `tile_T_promoted` in `session_on_T` (layer present). -/
theorem C8_setsurface_promotes_immediately_witness :
    (∃ (after : outcome (Option guac_rdp_bitmap)) (layer : guac_common_display_layer),
        guac_rdp_bitmap_setsurface session (some tile_T) false = Except.ok after ∧
        after.ret = true ∧
        layer = ⟨session.rdp_client.display.next_index⟩ ∧
        after.bitmap = some { tile_T with layer := some layer } ∧
        after.bitmap.map guac_rdp_bitmap.used = some tile_T.used ∧
        after.context.rdp_client.display.calls =
          session.rdp_client.display.calls ++
            display_call.alloc_buffer (to_int tile_T.width) (to_int tile_T.height) (some layer) ::
            (match tile_T.data with
             | some data =>
               [display_call.surface_draw layer.surface 0 0
                  { data := data
                    format := cairo_format_t.CAIRO_FORMAT_RGB24
                    width := to_int tile_T.width
                    height := to_int tile_T.height
                    stride := to_int (4 * (tile_T.width : Int)) }]
             | none => []) ∧
        allocations after.context.rdp_client.display =
          allocations session.rdp_client.display + 1 ∧
        after.context.rdp_client.current_surface = layer.surface) ∧
    (∃ after : outcome (Option guac_rdp_bitmap),
        guac_rdp_bitmap_setsurface session_on_T (some tile_T_promoted) false = Except.ok after ∧
        after.ret = true ∧
        after.bitmap = some tile_T_promoted ∧
        after.context.rdp_client.display = session_on_T.rdp_client.display ∧
        after.context.rdp_client.current_surface =
          (⟨0⟩ : guac_common_display_layer).surface) ∧
    (to_int tile_T.width = tile_T.width ∧ to_int tile_T.height = tile_T.height) :=
  ⟨(C8_setsurface_promotes_immediately session tile_T).1 rfl (by decide),
   (C8_setsurface_promotes_immediately session_on_T tile_T_promoted).2.1 ⟨0⟩ rfl,
   (C8_setsurface_promotes_immediately session tile_T).2.2 (by decide) (by decide)⟩

/-- Claim C9: `guac_rdp_bitmap_setsurface` with `primary = FALSE` is
idempotent on a non-NULL bitmap: from every starting state, calling it a
second time on the context and bitmap left by the first call gives exactly
the outcome of the first call: the same return value, the same context
(active target, display with its buffers and the calls it received, hence the
same number of allocations) and the same bitmap (layer, used, data). The
first call returns, and so does the second, in every state but the one where
the bitmap has no layer and the display has no buffer left, in which the
first call already dereferences `NULL`. -/
theorem C9_setsurface_idempotent (context : rdpContext) (bitmap : guac_rdp_bitmap) :
    (match guac_rdp_bitmap_setsurface context (some bitmap) false with
     | Except.error fault => Except.error fault
     | Except.ok once => guac_rdp_bitmap_setsurface once.context once.bitmap false) =
      guac_rdp_bitmap_setsurface context (some bitmap) false ∧
    ((guac_rdp_bitmap_setsurface context (some bitmap) false =
          Except.error Fault.null_dereference ∧
        bitmap.layer = none ∧ context.rdp_client.display.remaining = 0) ∨
     (∃ once twice : outcome (Option guac_rdp_bitmap),
        guac_rdp_bitmap_setsurface context (some bitmap) false = Except.ok once ∧
        guac_rdp_bitmap_setsurface once.context once.bitmap false = Except.ok twice ∧
        twice = once ∧
        twice.context.rdp_client.current_surface = once.context.rdp_client.current_surface ∧
        allocations twice.context.rdp_client.display =
          allocations once.context.rdp_client.display)) := by
  cases hl : bitmap.layer with
  | some layer =>
    have h2 : guac_rdp_bitmap_setsurface (context.set_current_surface layer.surface)
        (some bitmap) false = Except.ok
          { ret := true
            context := context.set_current_surface layer.surface
            bitmap := some bitmap } := by
      rw [setsurface_cached _ bitmap layer hl]
      rfl
    rw [setsurface_cached context bitmap layer hl]
    exact ⟨h2, Or.inr ⟨_, _, rfl, h2, rfl, rfl, rfl⟩⟩
  | none =>
    by_cases hr : context.rdp_client.display.remaining = 0
    · rw [setsurface_alloc_fails context bitmap hl hr]
      exact ⟨rfl, Or.inl ⟨rfl, rfl, hr⟩⟩
    · rw [setsurface_promotes context bitmap hl (by omega)]
      have h2 := setsurface_cached
        ((context.set_display
            { next_index := context.rdp_client.display.next_index + 1
              remaining := context.rdp_client.display.remaining - 1
              calls := context.rdp_client.display.calls ++
                display_call.alloc_buffer (to_int bitmap.width) (to_int bitmap.height)
                  (some ⟨context.rdp_client.display.next_index⟩) ::
                (match bitmap.data with
                 | some data =>
                   [display_call.surface_draw
                      (guac_common_surface.buffer_surface context.rdp_client.display.next_index)
                      0 0
                      { data := data
                        format := cairo_format_t.CAIRO_FORMAT_RGB24
                        width := to_int bitmap.width
                        height := to_int bitmap.height
                        stride := to_int (4 * (bitmap.width : Int)) }]
                 | none => []) }).set_current_surface
            (guac_common_surface.buffer_surface context.rdp_client.display.next_index))
        { bitmap with layer := some ⟨context.rdp_client.display.next_index⟩ }
        ⟨context.rdp_client.display.next_index⟩ rfl
      exact ⟨h2, Or.inr ⟨_, _, rfl, h2, rfl, rfl, rfl⟩⟩

/-- Claim C10, as stated, fails: `used` is a 32-bit `int`. After 2147483647
paints of `tile_T` following its creation, `used` is 2147483647 (`INT_MAX`);
the next paint, the 2147483648th, returns with `used = -2147483648`, which is
neither one more than before nor the number of paints. -/
theorem C10_used_wraps_at_int_max :
    ∃ reached after : outcome guac_rdp_bitmap,
      paint_run 2147483647 (guac_rdp_bitmap_new failing_converter session tile_T).context
        (guac_rdp_bitmap_new failing_converter session tile_T).bitmap = Except.ok reached ∧
      reached.bitmap.used = 2147483647 ∧
      guac_rdp_bitmap_paint reached.context reached.bitmap = Except.ok after ∧
      after.bitmap.used = -2147483648 ∧
      after.bitmap.used ≠ reached.bitmap.used + 1 := by
  obtain ⟨reached, hrun, -, hlayer⟩ :=
    paint_run_created failing_converter session tile_T 2147483647 (by decide)
  have hlayer2 : reached.bitmap.layer = some ⟨session.rdp_client.display.next_index⟩ := by
    rw [hlayer]
    norm_num
  have hused : reached.bitmap.used = 2147483647 := by
    rw [paint_run_used 2147483647 _ _ reached hrun
      (by rw [(new_layer_used failing_converter session tile_T).2]; norm_num)
      (by rw [(new_layer_used failing_converter session tile_T).2]; norm_num),
      (new_layer_used failing_converter session tile_T).2]
    norm_num
  have hwrap : to_int (reached.bitmap.used + 1) = -2147483648 := by
    rw [hused]
    norm_num [to_int]
  refine ⟨reached, _, hrun, hused, paint_cached reached.context reached.bitmap _ hlayer2, hwrap,
    ?_⟩
  show to_int (reached.bitmap.used + 1) ≠ reached.bitmap.used + 1
  rw [hwrap, hused]
  norm_num

/-- Claim C10, amended: `used` is a 32-bit `int`, and every
`guac_rdp_bitmap_paint` call that finds it below `INT_MAX` (2147483647) adds
exactly one to it, whichever branch it takes; in general a call that returns
leaves the wrapped increment. The call returns whenever the bitmap has a layer
(cached copy), or has not been painted yet, or has no pixel data, or the
display has a buffer left (so in all three drawing branches). Hence `n` paints
of a bitmap just created by `guac_rdp_bitmap_new` (which sets `used` to 0)
leave `used = n` for every `n` up to 2147483647. The other functions that
receive the bitmap do not change `used`: `guac_rdp_cache_bitmap` and
`guac_rdp_bitmap_setsurface` return it with the same `used`
(`guac_rdp_bitmap_free` does not write the bitmap at all). -/
theorem C10_paint_increments_used (freerdp_image_copy : image_converter)
    (context : rdpContext) (bitmap : guac_rdp_bitmap) (n : Nat) (primary : Bool) :
    ((bitmap.layer ≠ none ∨ bitmap.used < 1 ∨ bitmap.data = none ∨
        0 < context.rdp_client.display.remaining) →
      -2147483648 ≤ bitmap.used → bitmap.used < 2147483647 →
      ∃ after : outcome guac_rdp_bitmap,
        guac_rdp_bitmap_paint context bitmap = Except.ok after ∧
        after.bitmap.used = bitmap.used + 1) ∧
    (∀ after : outcome guac_rdp_bitmap,
      guac_rdp_bitmap_paint context bitmap = Except.ok after →
        after.bitmap.used = to_int (bitmap.used + 1) ∧
        (-2147483648 ≤ bitmap.used → bitmap.used < 2147483647 →
          after.bitmap.used = bitmap.used + 1)) ∧
    (guac_rdp_bitmap_new freerdp_image_copy context bitmap).bitmap.used = 0 ∧
    (0 < context.rdp_client.display.remaining → n ≤ 2147483647 →
      ∃ after : outcome guac_rdp_bitmap,
        paint_run n (guac_rdp_bitmap_new freerdp_image_copy context bitmap).context
          (guac_rdp_bitmap_new freerdp_image_copy context bitmap).bitmap = Except.ok after ∧
        after.bitmap.used = n) ∧
    (∀ after : outcome guac_rdp_bitmap,
      guac_rdp_cache_bitmap context bitmap = Except.ok after →
        after.bitmap.used = bitmap.used) ∧
    (∀ after : outcome (Option guac_rdp_bitmap),
      guac_rdp_bitmap_setsurface context (some bitmap) primary = Except.ok after →
        after.bitmap.map guac_rdp_bitmap.used = some bitmap.used) := by
  refine ⟨?_, ?_, (new_layer_used freerdp_image_copy context bitmap).2, ?_, ?_, ?_⟩
  · intro h hlow hhigh
    obtain ⟨after, h1⟩ := paint_returns context bitmap h
    exact ⟨after, h1, by rw [(paint_used context bitmap after h1).1, to_int_succ _ hlow hhigh]⟩
  · intro after h
    refine ⟨(paint_used context bitmap after h).1, ?_⟩
    intro hlow hhigh
    rw [(paint_used context bitmap after h).1, to_int_succ _ hlow hhigh]
  · intro hr hn
    obtain ⟨after, h1, -, -⟩ := paint_run_created freerdp_image_copy context bitmap n hr
    have h0 := (new_layer_used freerdp_image_copy context bitmap).2
    refine ⟨after, h1, ?_⟩
    rw [paint_run_used n _ _ after h1 (by rw [h0]; norm_num)
      (by rw [h0]; omega), h0]
    simp
  · intro after h
    rw [(cache_bitmap_fields context bitmap after h).1]
  · intro after h
    cases primary with
    | true =>
      simp only [guac_rdp_bitmap_setsurface, if_true] at h
      injection h with h
      subst h
      rfl
    | false =>
      cases hl : bitmap.layer with
      | some layer =>
        rw [setsurface_cached context bitmap layer hl] at h
        injection h with h
        subst h
        rfl
      | none =>
        by_cases hr : context.rdp_client.display.remaining = 0
        · rw [setsurface_alloc_fails context bitmap hl hr] at h
          cases h
        · rw [setsurface_promotes context bitmap hl (by omega)] at h
          injection h with h
          subst h
          rfl

/-- Witness of C10 (amended): the first paint of `tile_T` and a run of three
paints after its creation, in `session`. -/
theorem C10_paint_increments_used_witness :
    (∃ after : outcome guac_rdp_bitmap,
      guac_rdp_bitmap_paint session tile_T = Except.ok after ∧
      after.bitmap.used = tile_T.used + 1) ∧
    (∃ after : outcome guac_rdp_bitmap,
      paint_run 3 (guac_rdp_bitmap_new failing_converter session tile_T).context
        (guac_rdp_bitmap_new failing_converter session tile_T).bitmap = Except.ok after ∧
      after.bitmap.used = (3 : Nat)) :=
  ⟨(C10_paint_increments_used failing_converter session tile_T 3 false).1
      (Or.inr (Or.inl (by decide))) (by decide) (by decide),
   (C10_paint_increments_used failing_converter session tile_T 3 false).2.2.2.1 (by decide)
      (by decide)⟩

/-- Claim C11: pixel-format normalization in `guac_rdp_bitmap_new`. In every
case the call returns TRUE with `layer = NULL` and `used = 0` and leaves the
format field and the display as they were. If the bitmap has no data, or its
format is already `PIXEL_FORMAT_XRGB32`, the data is kept as is and no
conversion is attempted (the heap receives no call). Otherwise a buffer of
`width * height * 4` bytes (in `UINT32` arithmetic), aligned to 16, is
requested and the conversion is attempted: if it fails, the data is exactly
the original and the new buffer is released; if it succeeds, the data is the
new buffer holding the converted bytes and the original buffer is released. -/
theorem C11_new_normalizes_format (freerdp_image_copy : image_converter)
    (context : rdpContext) (bitmap : guac_rdp_bitmap) :
    (guac_rdp_bitmap_new freerdp_image_copy context bitmap).ret = true ∧
    (guac_rdp_bitmap_new freerdp_image_copy context bitmap).bitmap.layer = none ∧
    (guac_rdp_bitmap_new freerdp_image_copy context bitmap).bitmap.used = 0 ∧
    (guac_rdp_bitmap_new freerdp_image_copy context bitmap).bitmap.format = bitmap.format ∧
    (guac_rdp_bitmap_new freerdp_image_copy context bitmap).context.rdp_client =
      context.rdp_client ∧
    (match bitmap.data with
     | none =>
       (guac_rdp_bitmap_new freerdp_image_copy context bitmap).bitmap.data = none ∧
       (guac_rdp_bitmap_new freerdp_image_copy context bitmap).context = context
     | some data =>
       if bitmap.format = PIXEL_FORMAT_XRGB32 then
         (guac_rdp_bitmap_new freerdp_image_copy context bitmap).bitmap.data = some data ∧
         (guac_rdp_bitmap_new freerdp_image_copy context bitmap).context = context
       else
         match freerdp_image_copy bitmap.width bitmap.height data.bytes bitmap.format with
         | none =>
           (guac_rdp_bitmap_new freerdp_image_copy context bitmap).bitmap.data = some data ∧
           (guac_rdp_bitmap_new freerdp_image_copy context bitmap).context.heap_calls =
             context.heap_calls ++
               [heap_call.aligned_malloc
                  (to_uint32 ((bitmap.width : Int) * (bitmap.height : Int) * 4)) 16
                  context.next_addr,
                heap_call.aligned_free context.next_addr]
         | some bytes =>
           (guac_rdp_bitmap_new freerdp_image_copy context bitmap).bitmap.data =
             some { addr := context.next_addr, bytes := bytes } ∧
           (guac_rdp_bitmap_new freerdp_image_copy context bitmap).context.heap_calls =
             context.heap_calls ++
               [heap_call.aligned_malloc
                  (to_uint32 ((bitmap.width : Int) * (bitmap.height : Int) * 4)) 16
                  context.next_addr,
                heap_call.aligned_free data.addr]) := by
  refine ⟨rfl, rfl, rfl, ?_, new_rdp_client freerdp_image_copy context bitmap, ?_⟩
  · simp only [guac_rdp_bitmap_new]
    split <;> [split <;> [split <;> simp; simp]; simp]
  · cases hd : bitmap.data with
    | none => simp [guac_rdp_bitmap_new, hd]
    | some data =>
      by_cases hf : bitmap.format = PIXEL_FORMAT_XRGB32
      · simp [guac_rdp_bitmap_new, hd, hf]
      · cases hc : freerdp_image_copy bitmap.width bitmap.height data.bytes bitmap.format <;>
          simp [guac_rdp_bitmap_new, hd, hf, hc, aligned_malloc, aligned_free]

/-- Claim C12: round trip of promotion, with surfaces as pixel grids. Take a
bitmap with pixel data, no layer and not yet painted, whose width and height
fit a C `int`, a display with a buffer left, and a draw region with
`1 ≤ right - left + 1 ≤ width` and `1 ≤ bottom - top + 1 ≤ height`. Caching
the bitmap with `guac_rdp_cache_bitmap` (the data is drawn into a fresh buffer
of the bitmap's size at (0, 0)) and then painting it (the rectangle
`(0, 0, w, h)` of that buffer is copied to (`left`, `top`)) leaves the default
surface with exactly the pixels, and the size, that painting the bitmap
directly (the data drawn as a `w x h` image with stride `4 * width` at
(`left`, `top`)) leaves it with, whatever the surfaces held before. -/
theorem C12_promotion_round_trip (context : rdpContext) (bitmap : guac_rdp_bitmap)
    (data : pixel_buffer) (surfaces : guac_common_surface → pixel_grid)
    (hl : bitmap.layer = none) (hd : bitmap.data = some data) (hu : bitmap.used < 1)
    (hr : 0 < context.rdp_client.display.remaining)
    (hW : bitmap.width < 2147483648) (hH : bitmap.height < 2147483648)
    (hw1 : 1 ≤ (bitmap.right : Int) - (bitmap.left : Int) + 1)
    (hw2 : (bitmap.right : Int) - (bitmap.left : Int) + 1 ≤ bitmap.width)
    (hh1 : 1 ≤ (bitmap.bottom : Int) - (bitmap.top : Int) + 1)
    (hh2 : (bitmap.bottom : Int) - (bitmap.top : Int) + 1 ≤ bitmap.height) :
    ∃ cached copied direct : outcome guac_rdp_bitmap,
      guac_rdp_cache_bitmap context bitmap = Except.ok cached ∧
      guac_rdp_bitmap_paint cached.context cached.bitmap = Except.ok copied ∧
      guac_rdp_bitmap_paint context bitmap = Except.ok direct ∧
      (∀ x y : Int,
        (render copied.context.rdp_client.display.calls surfaces
            guac_common_surface.default_surface).pixel x y =
          (render direct.context.rdp_client.display.calls surfaces
            guac_common_surface.default_surface).pixel x y) ∧
      (render copied.context.rdp_client.display.calls surfaces
          guac_common_surface.default_surface).width =
        (render direct.context.rdp_client.display.calls surfaces
          guac_common_surface.default_surface).width ∧
      (render copied.context.rdp_client.display.calls surfaces
          guac_common_surface.default_surface).height =
        (render direct.context.rdp_client.display.calls surfaces
          guac_common_surface.default_surface).height := by
  have eW : to_int bitmap.width = bitmap.width := to_int_of_lt _ hW
  have eH : to_int bitmap.height = bitmap.height := to_int_of_lt _ hH
  have ew : to_int ((bitmap.right : Int) - (bitmap.left : Int) + 1) =
      (bitmap.right : Int) - (bitmap.left : Int) + 1 :=
    to_int_of_range _ (by omega) (by omega)
  have eh : to_int ((bitmap.bottom : Int) - (bitmap.top : Int) + 1) =
      (bitmap.bottom : Int) - (bitmap.top : Int) + 1 :=
    to_int_of_range _ (by omega) (by omega)
  refine ⟨_, _, _, cache_bitmap_data context bitmap data hd hr,
    paint_cached _ _ ⟨context.rdp_client.display.next_index⟩ rfl,
    paint_unused context bitmap hl hu, ?_, ?_, ?_⟩
  · intro x y
    simp only [hd, rdpContext.set_display, guac_common_surface_copy, guac_common_surface_draw,
      cairo_image_surface_create_for_data, guac_common_display_layer.surface,
      List.append_assoc, List.cons_append, List.nil_append, render_append]
    exact round_trip_pixels _ _ data _ _ _ _ _ _ _ (by rw [ew, eW]; exact hw2)
      (by rw [eh, eH]; exact hh2) x y
  · simp only [hd, rdpContext.set_display, guac_common_surface_copy, guac_common_surface_draw,
      cairo_image_surface_create_for_data, guac_common_display_layer.surface,
      List.append_assoc, List.cons_append, List.nil_append, render_append]
    exact (round_trip_size _ _ data _ _ _ _ _ _ _).1
  · simp only [hd, rdpContext.set_display, guac_common_surface_copy, guac_common_surface_draw,
      cairo_image_surface_create_for_data, guac_common_display_layer.surface,
      List.append_assoc, List.cons_append, List.nil_append, render_append]
    exact (round_trip_size _ _ data _ _ _ _ _ _ _).2

/-- Witness of C12: `tile_T` (2 x 2, region 2 x 2 at (0, 0)) in `session`,
rendered over blank 8 x 8 surfaces. -/
theorem C12_promotion_round_trip_witness :
    ∃ cached copied direct : outcome guac_rdp_bitmap,
      guac_rdp_cache_bitmap session tile_T = Except.ok cached ∧
      guac_rdp_bitmap_paint cached.context cached.bitmap = Except.ok copied ∧
      guac_rdp_bitmap_paint session tile_T = Except.ok direct ∧
      (∀ x y : Int,
        (render copied.context.rdp_client.display.calls blank_surfaces
            guac_common_surface.default_surface).pixel x y =
          (render direct.context.rdp_client.display.calls blank_surfaces
            guac_common_surface.default_surface).pixel x y) ∧
      (render copied.context.rdp_client.display.calls blank_surfaces
          guac_common_surface.default_surface).width =
        (render direct.context.rdp_client.display.calls blank_surfaces
          guac_common_surface.default_surface).width ∧
      (render copied.context.rdp_client.display.calls blank_surfaces
          guac_common_surface.default_surface).height =
        (render direct.context.rdp_client.display.calls blank_surfaces
          guac_common_surface.default_surface).height :=
  C12_promotion_round_trip session tile_T
    { addr := 16, bytes := [1, 2, 3, 0, 4, 5, 6, 0, 7, 8, 9, 0, 10, 11, 12, 0] }
    blank_surfaces rfl rfl (by decide) (by decide) (by decide) (by decide) (by decide)
    (by decide) (by decide) (by decide)

/-- Claim C13, as stated, fails: in a session whose display has no buffer
left, the first paint of `tile_T` (which has pixel data) returns with
`used = 1` and no layer, and the second paint reaches the promotion gate, is
given no buffer, and dereferences it in `guac_rdp_cache_bitmap`: it neither
returns TRUE nor falls back to a direct draw. -/
theorem C13_failed_allocation_with_data_faults :
    ∃ first : outcome guac_rdp_bitmap,
      guac_rdp_bitmap_paint
        (guac_rdp_bitmap_new failing_converter session_exhausted tile_T).context
        (guac_rdp_bitmap_new failing_converter session_exhausted tile_T).bitmap =
          Except.ok first ∧
      first.bitmap.layer = none ∧
      first.bitmap.used = 1 ∧
      first.bitmap.data.isSome = true ∧
      first.context.rdp_client.display.remaining = 0 ∧
      guac_rdp_bitmap_paint first.context first.bitmap =
        Except.error Fault.null_dereference :=
  ⟨_, rfl, by decide, by decide, by decide, by decide, rfl⟩

/-- Claim C13, amended: the code has no failure path for the allocation at
promotion. When a paint reaches the promotion gate (`layer` NULL, `used` at
least 1) and the display returns no buffer, then for a bitmap without pixel
data the call returns TRUE, `layer` stays NULL, nothing is drawn (the only
call the display received is the failed request), and the next paint returns
with `layer` still NULL; as long as `used` was below `INT_MAX` (so that the
counter has not wrapped) that next paint reaches the gate again and asks the
display for a buffer again. For a bitmap with pixel data the missing buffer
is dereferenced in `guac_rdp_cache_bitmap`. -/
theorem C13_failed_allocation_without_data (context : rdpContext) (bitmap : guac_rdp_bitmap)
    (hl : bitmap.layer = none) (hu : 1 ≤ bitmap.used)
    (hr : context.rdp_client.display.remaining = 0) :
    (bitmap.data = none →
      ∃ after again : outcome guac_rdp_bitmap,
        guac_rdp_bitmap_paint context bitmap = Except.ok after ∧
        after.ret = true ∧
        after.bitmap.layer = none ∧
        after.context.rdp_client.display.calls =
          context.rdp_client.display.calls ++
            [display_call.alloc_buffer (to_int bitmap.width) (to_int bitmap.height) none] ∧
        guac_rdp_bitmap_paint after.context after.bitmap = Except.ok again ∧
        again.bitmap.layer = none ∧
        (bitmap.used < 2147483647 →
          1 ≤ after.bitmap.used ∧
          allocations again.context.rdp_client.display =
            allocations after.context.rdp_client.display + 1)) ∧
    (∀ data : pixel_buffer, bitmap.data = some data →
      guac_rdp_bitmap_paint context bitmap = Except.error Fault.null_dereference) := by
  constructor
  · intro hd
    have h1 := paint_alloc_fails_no_data context bitmap hl hu hr hd
    obtain ⟨again, e2, l2, al2⟩ := paint_refused_no_data
      (context.set_display
        { context.rdp_client.display with
          calls := context.rdp_client.display.calls ++
            [display_call.alloc_buffer (to_int bitmap.width) (to_int bitmap.height) none] })
      { bitmap with used := to_int (bitmap.used + 1) } hl hr hd
    refine ⟨_, again, h1, rfl, hl, rfl, e2, l2, ?_⟩
    intro hb
    have hused : to_int (bitmap.used + 1) = bitmap.used + 1 :=
      to_int_succ _ (by omega) hb
    have hone : (1 : Int) ≤ to_int (bitmap.used + 1) := by
      rw [hused]
      omega
    exact ⟨hone, al2 hone⟩
  · intro data hd
    exact paint_alloc_fails_data context bitmap data hl hu hr hd

/-- Witness of C13 (amended): a paint of `tile_empty` (no pixel data, painted
once) and a paint of `tile_T` painted once (pixel data), both in the session
whose display has no buffer left. -/
theorem C13_failed_allocation_without_data_witness :
    (∃ after again : outcome guac_rdp_bitmap,
      guac_rdp_bitmap_paint session_exhausted tile_empty = Except.ok after ∧
      after.ret = true ∧
      after.bitmap.layer = none ∧
      after.context.rdp_client.display.calls =
        session_exhausted.rdp_client.display.calls ++
          [display_call.alloc_buffer (to_int tile_empty.width) (to_int tile_empty.height)
            none] ∧
      1 ≤ after.bitmap.used ∧
      guac_rdp_bitmap_paint after.context after.bitmap = Except.ok again ∧
      again.bitmap.layer = none ∧
      allocations again.context.rdp_client.display =
        allocations after.context.rdp_client.display + 1) ∧
    guac_rdp_bitmap_paint session_exhausted { tile_T with used := 1 } =
      Except.error Fault.null_dereference := by
  obtain ⟨after, again, h1, h2, h3, h4, h5, h6, h7⟩ :=
    (C13_failed_allocation_without_data session_exhausted tile_empty rfl (by decide) rfl).1 rfl
  exact ⟨⟨after, again, h1, h2, h3, h4, (h7 (by decide)).1, h5, h6, (h7 (by decide)).2⟩,
    (C13_failed_allocation_without_data session_exhausted { tile_T with used := 1 } rfl
      (by decide) rfl).2 _ rfl⟩

/-- Claim C14: the active target `rdp_client->current_surface` is written
only by `guac_rdp_bitmap_setsurface`. The functions `guac_rdp_bitmap_new` and
`guac_rdp_bitmap_free` leave it unchanged on every input; so do
`guac_rdp_cache_bitmap` and `guac_rdp_bitmap_paint` whenever they return
(which they do unless a buffer is refused to a bitmap with pixel data). With
`primary = TRUE`, `guac_rdp_bitmap_setsurface` returns TRUE for every bitmap
argument, NULL included, having made the display's default surface the active
target and changed nothing else: the display (no call, no allocation), the
heap, the log and the bitmap are as before. -/
theorem C14_only_setsurface_changes_target (freerdp_image_copy : image_converter)
    (context : rdpContext) (bitmap : guac_rdp_bitmap) (argument : Option guac_rdp_bitmap) :
    (guac_rdp_bitmap_new freerdp_image_copy context bitmap).context.rdp_client.current_surface =
      context.rdp_client.current_surface ∧
    (guac_rdp_bitmap_free context bitmap).rdp_client.current_surface =
      context.rdp_client.current_surface ∧
    (∀ after : outcome guac_rdp_bitmap,
      guac_rdp_cache_bitmap context bitmap = Except.ok after →
        after.context.rdp_client.current_surface = context.rdp_client.current_surface) ∧
    (∀ after : outcome guac_rdp_bitmap,
      guac_rdp_bitmap_paint context bitmap = Except.ok after →
        after.context.rdp_client.current_surface = context.rdp_client.current_surface) ∧
    ((bitmap.data = none ∨ 0 < context.rdp_client.display.remaining) →
      ∃ cached painted : outcome guac_rdp_bitmap,
        guac_rdp_cache_bitmap context bitmap = Except.ok cached ∧
        cached.context.rdp_client.current_surface = context.rdp_client.current_surface ∧
        guac_rdp_bitmap_paint context bitmap = Except.ok painted ∧
        painted.context.rdp_client.current_surface = context.rdp_client.current_surface) ∧
    (∃ after : outcome (Option guac_rdp_bitmap),
      guac_rdp_bitmap_setsurface context argument true = Except.ok after ∧
      after.ret = true ∧
      after.context.rdp_client.current_surface = guac_common_surface.default_surface ∧
      after.context.rdp_client.display = context.rdp_client.display ∧
      allocations after.context.rdp_client.display = allocations context.rdp_client.display ∧
      after.context.next_addr = context.next_addr ∧
      after.context.heap_calls = context.heap_calls ∧
      after.context.log = context.log ∧
      after.bitmap = argument) := by
  refine ⟨?_, ?_, ?_, ?_, ?_, ⟨_, rfl, rfl, rfl, rfl, rfl, rfl, rfl, rfl, rfl⟩⟩
  · rw [new_rdp_client]
  · simp only [guac_rdp_bitmap_free]
    split <;> rfl
  · intro after h
    exact (cache_bitmap_fields context bitmap after h).2
  · intro after h
    exact paint_current_surface context bitmap after h
  · intro h
    obtain ⟨cached, hc⟩ := cache_bitmap_returns context bitmap h
    obtain ⟨painted, hp⟩ := paint_returns context bitmap
      (by rcases h with h | h
          · exact Or.inr (Or.inr (Or.inl h))
          · exact Or.inr (Or.inr (Or.inr h)))
    exact ⟨cached, painted, hc, (cache_bitmap_fields context bitmap cached hc).2, hp,
      paint_current_surface context bitmap painted hp⟩

/-- Witness of C14: caching and painting `tile_U` while the surface of
`tile_T` is the active target leave that target in place. -/
theorem C14_only_setsurface_changes_target_witness :
    ∃ cached painted : outcome guac_rdp_bitmap,
      guac_rdp_cache_bitmap session_on_T tile_U = Except.ok cached ∧
      cached.context.rdp_client.current_surface = session_on_T.rdp_client.current_surface ∧
      guac_rdp_bitmap_paint session_on_T tile_U = Except.ok painted ∧
      painted.context.rdp_client.current_surface = session_on_T.rdp_client.current_surface :=
  (C14_only_setsurface_changes_target failing_converter session_on_T tile_U none).2.2.2.2.1
    (Or.inr (by decide))

/-- Claim C15: in `guac_rdp_bitmap_paint` the draw region is
`width = right - left + 1` and `height = bottom - top + 1`, computed from the
bounds stored in the bitmap (in `UINT32` arithmetic, converted to `int`). A
bitmap that has a layer is drawn by copying exactly the rectangle
`(0, 0, width, height)` of the layer's surface to (`left`, `top`); a bitmap
with pixel data and no layer is drawn, when the call returns, by an image of
exactly `width` by `height` pixels over that data whose row stride is
`4 * bitmap.width`, placed at (`left`, `top`). The converted values are the
mathematical ones whenever those fit a 32-bit `int`. -/
theorem C15_draw_region_and_stride (context : rdpContext) (bitmap : guac_rdp_bitmap) :
    (∀ layer : guac_common_display_layer, bitmap.layer = some layer →
      ∃ after : outcome guac_rdp_bitmap,
        guac_rdp_bitmap_paint context bitmap = Except.ok after ∧
        after.context.rdp_client.display.calls =
          context.rdp_client.display.calls ++
            [display_call.surface_copy layer.surface 0 0
              (to_int ((bitmap.right : Int) - (bitmap.left : Int) + 1))
              (to_int ((bitmap.bottom : Int) - (bitmap.top : Int) + 1))
              guac_common_surface.default_surface (to_int bitmap.left) (to_int bitmap.top)]) ∧
    (∀ data : pixel_buffer, bitmap.layer = none → bitmap.data = some data →
      (bitmap.used < 1 ∨ 0 < context.rdp_client.display.remaining) →
      ∃ (after : outcome guac_rdp_bitmap) (caching : List display_call),
        guac_rdp_bitmap_paint context bitmap = Except.ok after ∧
        after.context.rdp_client.display.calls =
          context.rdp_client.display.calls ++ caching ++
            [display_call.surface_draw guac_common_surface.default_surface
              (to_int bitmap.left) (to_int bitmap.top)
              { data := data
                format := cairo_format_t.CAIRO_FORMAT_RGB24
                width := to_int ((bitmap.right : Int) - (bitmap.left : Int) + 1)
                height := to_int ((bitmap.bottom : Int) - (bitmap.top : Int) + 1)
                stride := to_int (4 * (bitmap.width : Int)) }]) ∧
    (-2147483648 ≤ (bitmap.right : Int) - (bitmap.left : Int) + 1 →
      (bitmap.right : Int) - (bitmap.left : Int) + 1 < 2147483648 →
      to_int ((bitmap.right : Int) - (bitmap.left : Int) + 1) =
        (bitmap.right : Int) - (bitmap.left : Int) + 1) ∧
    (-2147483648 ≤ (bitmap.bottom : Int) - (bitmap.top : Int) + 1 →
      (bitmap.bottom : Int) - (bitmap.top : Int) + 1 < 2147483648 →
      to_int ((bitmap.bottom : Int) - (bitmap.top : Int) + 1) =
        (bitmap.bottom : Int) - (bitmap.top : Int) + 1) ∧
    (4 * (bitmap.width : Int) < 2147483648 →
      to_int (4 * (bitmap.width : Int)) = 4 * (bitmap.width : Int)) ∧
    (bitmap.left < 2147483648 → bitmap.top < 2147483648 →
      to_int bitmap.left = bitmap.left ∧ to_int bitmap.top = bitmap.top) := by
  refine ⟨?_, ?_, ?_, ?_, ?_, ?_⟩
  · intro layer hl
    refine ⟨_, paint_cached context bitmap layer hl, ?_⟩
    simp [rdpContext.set_display, guac_common_surface_copy]
  · intro data hl hd h
    exact paint_direct_draw context bitmap data hl hd h
  · intro h1 h2
    exact to_int_of_range _ h1 h2
  · intro h1 h2
    exact to_int_of_range _ h1 h2
  · intro h
    exact to_int_of_range _ (by omega) h
  · intro h1 h2
    exact ⟨to_int_of_lt _ h1, to_int_of_lt _ h2⟩

/-- Witness of C15: the cached copy of `tile_T_promoted` (region 2 x 2 at
(0, 0)) and the direct draw of `tile_U` (region 1 x 1 at (3, 5), stride 4). -/
theorem C15_draw_region_and_stride_witness :
    (∃ after : outcome guac_rdp_bitmap,
      guac_rdp_bitmap_paint session_on_T tile_T_promoted = Except.ok after ∧
      after.context.rdp_client.display.calls =
        session_on_T.rdp_client.display.calls ++
          [display_call.surface_copy (⟨0⟩ : guac_common_display_layer).surface 0 0
            (to_int ((tile_T_promoted.right : Int) - (tile_T_promoted.left : Int) + 1))
            (to_int ((tile_T_promoted.bottom : Int) - (tile_T_promoted.top : Int) + 1))
            guac_common_surface.default_surface
            (to_int tile_T_promoted.left) (to_int tile_T_promoted.top)]) ∧
    (∃ (after : outcome guac_rdp_bitmap) (caching : List display_call),
      guac_rdp_bitmap_paint session tile_U = Except.ok after ∧
      after.context.rdp_client.display.calls =
        session.rdp_client.display.calls ++ caching ++
          [display_call.surface_draw guac_common_surface.default_surface
            (to_int tile_U.left) (to_int tile_U.top)
            { data := { addr := 32, bytes := [20, 21, 22, 0] }
              format := cairo_format_t.CAIRO_FORMAT_RGB24
              width := to_int ((tile_U.right : Int) - (tile_U.left : Int) + 1)
              height := to_int ((tile_U.bottom : Int) - (tile_U.top : Int) + 1)
              stride := to_int (4 * (tile_U.width : Int)) }]) ∧
    to_int ((tile_U.right : Int) - (tile_U.left : Int) + 1) =
      (tile_U.right : Int) - (tile_U.left : Int) + 1 ∧
    to_int ((tile_U.bottom : Int) - (tile_U.top : Int) + 1) =
      (tile_U.bottom : Int) - (tile_U.top : Int) + 1 ∧
    to_int (4 * (tile_U.width : Int)) = 4 * (tile_U.width : Int) ∧
    (to_int tile_U.left = tile_U.left ∧ to_int tile_U.top = tile_U.top) :=
  ⟨(C15_draw_region_and_stride session_on_T tile_T_promoted).1 ⟨0⟩ rfl,
   (C15_draw_region_and_stride session tile_U).2.1 _ rfl rfl (Or.inl (by decide)),
   (C15_draw_region_and_stride session tile_U).2.2.1 (by decide) (by decide),
   (C15_draw_region_and_stride session tile_U).2.2.2.1 (by decide) (by decide),
   (C15_draw_region_and_stride session tile_U).2.2.2.2.1 (by decide),
   (C15_draw_region_and_stride session tile_U).2.2.2.2.2 (by decide) (by decide)⟩

/-- Claim C16, evaluated where it fails: for a 32768 x 32768 bitmap in a
16 bpp format, whatever its data, `guac_rdp_bitmap_new` requests a conversion
buffer of 0 bytes, because `width * height * 4` is `2^32` and wraps in
`UINT32` arithmetic, although 4294967296 bytes are needed for the converted
pixels. -/
theorem C16_conversion_buffer_size_wraps (freerdp_image_copy : image_converter)
    (context : rdpContext) (data : pixel_buffer) :
    (∃ release : heap_call,
      (guac_rdp_bitmap_new freerdp_image_copy context (tile_huge data)).context.heap_calls =
        context.heap_calls ++ [heap_call.aligned_malloc 0 16 context.next_addr, release]) ∧
    to_uint32 (((tile_huge data).width : Int) * ((tile_huge data).height : Int) * 4) = 0 ∧
    ((tile_huge data).width : Int) * ((tile_huge data).height : Int) * 4 = 4294967296 ∧
    (tile_huge data).width < 4294967296 ∧ (tile_huge data).height < 4294967296 := by
  have hs : to_uint32 (((tile_huge data).width : Int) * ((tile_huge data).height : Int) * 4) = 0 := by
    norm_num [tile_huge, to_uint32]
  refine ⟨?_, hs, by norm_num [tile_huge], by norm_num [tile_huge], by norm_num [tile_huge]⟩
  obtain ⟨release, h⟩ := new_heap_calls freerdp_image_copy context (tile_huge data) data rfl
    (by norm_num [tile_huge, PIXEL_FORMAT_RGB16, PIXEL_FORMAT_XRGB32])
  rw [hs] at h
  exact ⟨release, h⟩

/-- Claim C17: take the pixel buffer to hold `width * height * 4` bytes, with
a row stride `4 * width` that fits a C `int`. If the draw region satisfies
`1 ≤ right - left + 1 ≤ width` and `1 ≤ bottom - top + 1 ≤ height`, then the
direct draw issued by `guac_rdp_bitmap_paint` is over an image that reads only
bytes of the buffer, and the end of its last row,
`(height - 1) * 4 * bitmap.width + 4 * width`, is at most
`4 * bitmap.width * bitmap.height`. The function does not compare the bounds
with the bitmap's dimensions: `tile_T_overwide` (2 x 2 pixels of data, bounds
3 columns wide) is drawn all the same, over an image whose last row ends at
offset 20 of a 16-byte buffer. -/
theorem C17_direct_draw_reads_in_bounds :
    (∀ (context : rdpContext) (bitmap : guac_rdp_bitmap) (data : pixel_buffer),
      bitmap.layer = none → bitmap.data = some data →
      (bitmap.used < 1 ∨ 0 < context.rdp_client.display.remaining) →
      data.bytes.length = bitmap.width * bitmap.height * 4 →
      4 * (bitmap.width : Int) < 2147483648 →
      1 ≤ (bitmap.right : Int) - (bitmap.left : Int) + 1 →
      (bitmap.right : Int) - (bitmap.left : Int) + 1 ≤ bitmap.width →
      1 ≤ (bitmap.bottom : Int) - (bitmap.top : Int) + 1 →
      (bitmap.bottom : Int) - (bitmap.top : Int) + 1 ≤ bitmap.height →
      ∃ (after : outcome guac_rdp_bitmap) (caching : List display_call),
        guac_rdp_bitmap_paint context bitmap = Except.ok after ∧
        after.context.rdp_client.display.calls =
          context.rdp_client.display.calls ++ caching ++
            [display_call.surface_draw guac_common_surface.default_surface
              (to_int bitmap.left) (to_int bitmap.top) (paint_image bitmap data)] ∧
        (paint_image bitmap data).reads_in_bounds = true ∧
        (paint_image bitmap data).width = (bitmap.right : Int) - (bitmap.left : Int) + 1 ∧
        (paint_image bitmap data).stride = 4 * (bitmap.width : Int) ∧
        (paint_image bitmap data).read_end ≤
          4 * (bitmap.width : Int) * (bitmap.height : Int) ∧
        (paint_image bitmap data).read_end ≤ (data.bytes.length : Int)) ∧
    (∃ (after : outcome guac_rdp_bitmap) (data : pixel_buffer),
      tile_T_overwide.data = some data ∧
      data.bytes.length = tile_T_overwide.width * tile_T_overwide.height * 4 ∧
      ¬ ((tile_T_overwide.right : Int) - (tile_T_overwide.left : Int) + 1 ≤
        tile_T_overwide.width) ∧
      guac_rdp_bitmap_paint session tile_T_overwide = Except.ok after ∧
      after.context.rdp_client.display.calls =
        session.rdp_client.display.calls ++
          [display_call.surface_draw guac_common_surface.default_surface 0 0
            (paint_image tile_T_overwide data)] ∧
      (paint_image tile_T_overwide data).reads_in_bounds = false ∧
      (paint_image tile_T_overwide data).read_end = 20 ∧
      (data.bytes.length : Int) = 16) := by
  constructor
  · intro context bitmap data hl hd hu hlen hs hw1 hw2 hh1 hh2
    obtain ⟨after, caching, h1, h2⟩ := paint_direct_draw context bitmap data hl hd hu
    have ew : to_int ((bitmap.right : Int) - (bitmap.left : Int) + 1) =
        (bitmap.right : Int) - (bitmap.left : Int) + 1 :=
      to_int_of_range _ (by omega) (by omega)
    have es : to_int (4 * (bitmap.width : Int)) = 4 * (bitmap.width : Int) :=
      to_int_of_range _ (by omega) hs
    have eh : to_int ((bitmap.bottom : Int) - (bitmap.top : Int) + 1) ≤
        (bitmap.bottom : Int) - (bitmap.top : Int) + 1 := by
      unfold to_int
      split <;> omega
    have hlen2 : (data.bytes.length : Int) = (bitmap.width : Int) * (bitmap.height : Int) * 4 := by
      rw [hlen]
      push_cast
      ring
    have hW : (0 : Int) ≤ (bitmap.width : Int) := Int.ofNat_nonneg _
    have hend : (paint_image bitmap data).read_end ≤
        (bitmap.width : Int) * (bitmap.height : Int) * 4 := by
      simp only [cairo_surface_t.read_end, paint_image, cairo_image_surface_create_for_data]
      rw [ew, es]
      have h3 : to_int ((bitmap.bottom : Int) - (bitmap.top : Int) + 1) * (bitmap.width : Int) ≤
          (bitmap.height : Int) * (bitmap.width : Int) :=
        Int.mul_le_mul_of_nonneg_right (by omega) hW
      nlinarith
    have ew2 : (paint_image bitmap data).width =
        (bitmap.right : Int) - (bitmap.left : Int) + 1 := by
      simp only [paint_image, cairo_image_surface_create_for_data]
      exact ew
    have es2 : (paint_image bitmap data).stride = 4 * (bitmap.width : Int) := by
      simp only [paint_image, cairo_image_surface_create_for_data]
      exact es
    refine ⟨after, caching, h1, h2, ?_, ew2, es2, ?_, ?_⟩
    · apply reads_in_bounds_of_rows
      intro j hj
      simp only [paint_image, cairo_image_surface_create_for_data] at hj ⊢
      rw [ew, es, hlen2]
      exact region_rows_in_bounds (bitmap.width : Int) (bitmap.height : Int) _ _ (j : Int) hW hw2
        (le_trans eh hh2) (Int.ofNat_nonneg _) hj
    · calc (paint_image bitmap data).read_end
          ≤ (bitmap.width : Int) * (bitmap.height : Int) * 4 := hend
        _ = 4 * (bitmap.width : Int) * (bitmap.height : Int) := by ring
    · rw [hlen2]
      exact hend
  · exact ⟨_, _, rfl, by decide, by decide, rfl, by decide, by decide, by decide, by decide⟩

/-- Witness of C17: the first paint of `tile_T` (2 x 2 pixels, 16 bytes,
region 2 x 2) reads rows 0 and 1 of a stride-8 image, ending at offset 16. -/
theorem C17_direct_draw_reads_in_bounds_witness :
    ∃ (after : outcome guac_rdp_bitmap) (caching : List display_call),
      guac_rdp_bitmap_paint session tile_T = Except.ok after ∧
      after.context.rdp_client.display.calls =
        session.rdp_client.display.calls ++ caching ++
          [display_call.surface_draw guac_common_surface.default_surface
            (to_int tile_T.left) (to_int tile_T.top)
            (paint_image tile_T
              { addr := 16, bytes := [1, 2, 3, 0, 4, 5, 6, 0, 7, 8, 9, 0, 10, 11, 12, 0] })] ∧
      (paint_image tile_T
        { addr := 16, bytes := [1, 2, 3, 0, 4, 5, 6, 0, 7, 8, 9, 0, 10, 11, 12, 0] }
        ).reads_in_bounds = true ∧
      (paint_image tile_T
        { addr := 16, bytes := [1, 2, 3, 0, 4, 5, 6, 0, 7, 8, 9, 0, 10, 11, 12, 0] }).width =
          (tile_T.right : Int) - (tile_T.left : Int) + 1 ∧
      (paint_image tile_T
        { addr := 16, bytes := [1, 2, 3, 0, 4, 5, 6, 0, 7, 8, 9, 0, 10, 11, 12, 0] }).stride =
          4 * (tile_T.width : Int) ∧
      (paint_image tile_T
        { addr := 16, bytes := [1, 2, 3, 0, 4, 5, 6, 0, 7, 8, 9, 0, 10, 11, 12, 0] }).read_end ≤
          4 * (tile_T.width : Int) * (tile_T.height : Int) ∧
      (paint_image tile_T
        { addr := 16, bytes := [1, 2, 3, 0, 4, 5, 6, 0, 7, 8, 9, 0, 10, 11, 12, 0] }).read_end ≤
          (([1, 2, 3, 0, 4, 5, 6, 0, 7, 8, 9, 0, 10, 11, 12, 0] : List Nat).length : Int) :=
  C17_direct_draw_reads_in_bounds.1 session tile_T
    { addr := 16, bytes := [1, 2, 3, 0, 4, 5, 6, 0, 7, 8, 9, 0, 10, 11, 12, 0] }
    rfl rfl (Or.inl (by decide)) (by decide) (by decide) (by decide) (by decide) (by decide)
    (by decide)

/-- Claim C18, as stated, fails: from `session` (active target the canvas),
create `tile_T`, select it as target and destroy it. Every call is legal (the
bitmap is destroyed once and not used afterwards), yet in the final state the
active target is the surface of buffer 0, which has been released with the
only bitmap that held it: the active target is not a live surface. -/
theorem C18_free_of_target_leaves_it_dangling :
    ∃ final : world,
      world.run failing_converter false { context := session, tiles := [] }
        [command.new tile_T, command.setsurface (some 0) false, command.free 0] =
          some final ∧
      final.target_live = false ∧
      final.context.rdp_client.current_surface = guac_common_surface.buffer_surface 0 ∧
      final.tiles = [none] ∧
      releases final.context.rdp_client.display ⟨0⟩ = 1 :=
  ⟨_, rfl, by decide, by decide, by decide, by decide⟩

/-- Claim C18, amended: in every state reached from an initial state (no
bitmaps, active target the canvas) by a sequence of new / paint / setsurface /
free calls on live bitmaps in which no bitmap is destroyed while the surface
of its layer is the active target, the active target is a live surface: the
display's default surface or the surface of the layer of a bitmap that has
not been destroyed. The function `guac_rdp_bitmap_free` itself never changes
the active target, whichever bitmap it is given. -/
theorem C18_target_live_when_spared (freerdp_image_copy : image_converter)
    (context : rdpContext) (calls : List command) (final : world)
    (hinitial : context.rdp_client.current_surface = guac_common_surface.default_surface)
    (hrun : world.run freerdp_image_copy true { context := context, tiles := [] } calls =
      some final) :
    final.target_live = true ∧
    ∀ bitmap : guac_rdp_bitmap,
      (guac_rdp_bitmap_free final.context bitmap).rdp_client.current_surface =
        final.context.rdp_client.current_surface := by
  constructor
  · apply run_target_live freerdp_image_copy calls { context := context, tiles := [] } final
      _ hrun
    rw [target_live_iff]
    exact Or.inl hinitial
  · intro bitmap
    simp only [guac_rdp_bitmap_free]
    split <;> rfl

/-- Witness of C18 (amended): two bitmaps are created, the first is selected
as target, the second is painted and destroyed, the primary target is
selected again, and only then is the first bitmap destroyed. -/
theorem C18_target_live_when_spared_witness :
    session.rdp_client.current_surface = guac_common_surface.default_surface ∧
    ∃ final : world,
      world.run failing_converter true { context := session, tiles := [] }
        [command.new tile_T, command.new tile_U, command.setsurface (some 0) false,
         command.paint 1 3 5 3 5, command.free 1, command.setsurface none true,
         command.free 0] = some final ∧
      final.target_live = true ∧
      ∀ bitmap : guac_rdp_bitmap,
        (guac_rdp_bitmap_free final.context bitmap).rdp_client.current_surface =
          final.context.rdp_client.current_surface :=
  ⟨rfl, _, rfl,
    C18_target_live_when_spared failing_converter session
      [command.new tile_T, command.new tile_U, command.setsurface (some 0) false,
       command.paint 1 3 5 3 5, command.free 1, command.setsurface none true,
       command.free 0] _ rfl rfl⟩

end RdpBitmap
